import Mathlib

/-!
Verification of the decision engine of the Police/Thief chase game
(src/game.py) against its specification.

The Python code is shallowly embedded: floats become exact rationals (ℚ),
Python lists become Lean lists, classes become structures, loops become
folds or fuel-bounded recursion.  Python float infinity, which appears as
an initial value of minima and as the value of missing quantities, is
modelled by the extended rationals ERat below; where the source uses a
plain numeric sentinel (such as 10000) the sentinel is kept as is.
Dictionaries with a fixed key set become structures.  String-valued tags
(urgency levels, speed actions, power-up types) stay strings.
-/

set_option allowUnsafeReducibility true
attribute [semireducible] Rat.add Rat.mul Rat.sub Rat.inv Rat.div Rat.ofScientific Rat.neg Rat.floor Rat.ceil

namespace PoliceThief

/-- Extended rationals: the value set of Python floats as used by the
game code (finite values plus the two infinities; NaN never flows into a
comparison on the modelled paths, see predictive_safety_check). -/
inductive ERat where
  | ninf : ERat
  | fin : ℚ → ERat
  | pinf : ERat
deriving DecidableEq

/-- Strict comparison of extended rationals (Python float less-than). -/
def ERat.blt : ERat → ERat → Bool
  | .ninf, .ninf => false
  | .ninf, _ => true
  | .fin _, .ninf => false
  | .fin a, .fin b => decide (a < b)
  | .fin _, .pinf => true
  | .pinf, _ => false

/-- Non-strict comparison of extended rationals. -/
def ERat.ble (a b : ERat) : Bool := !(ERat.blt b a)

/-- Python min of two extended rationals (keeps the first on ties). -/
def eratMin (a b : ERat) : ERat := if ERat.blt b a then b else a

/-- Python max of two extended rationals (keeps the first on ties). -/
def eratMax (a b : ERat) : ERat := if ERat.blt a b then b else a

/-- Python int() applied to a float: truncation toward zero. -/
def pyInt (q : ℚ) : ℤ := if 0 ≤ q then ⌊q⌋ else ⌈q⌉

/-- Python max over a nonempty list given as head and tail, with a
rational key: returns the first element attaining the maximal key,
exactly like CPython's max (a later element replaces the current best
only when its key is strictly greater). -/
def pyMax1 (key : α → ℚ) (x : α) (xs : List α) : α :=
  xs.foldl (fun b a => if key b < key a then a else b) x

/-- Python min over a list with a rational key: returns the first
element attaining the minimal key, or none for the empty list. -/
def pyMinBy (key : α → ℚ) : List α → Option α
  | [] => none
  | x :: xs => some (xs.foldl (fun b a => if key a < key b then a else b) x)

/-- Stable insertion used to model Python's stable list.sort: the new
element goes after every existing element whose key is less than or
equal to it. -/
def insertSorted (le : α → α → Bool) (a : α) : List α → List α
  | [] => [a]
  | b :: bs => if le b a then b :: insertSorted le a bs else a :: b :: bs

/-- Stable sort (insertion sort), modelling Python list.sort with a key. -/
def pySort (le : α → α → Bool) (l : List α) : List α :=
  l.foldl (fun acc a => insertSorted le a acc) []

/-! ## Track constants (module-level constants of game.py) -/

/-- ROAD_WIDTH = 500. -/
def ROAD_WIDTH : ℚ := 500

/-- ROAD_X = (SCREEN_WIDTH - ROAD_WIDTH) // 2 = (1000 - 500) // 2 = 250. -/
def ROAD_X : ℚ := 250

/-- LANE_WIDTH = ROAD_WIDTH // 3 = 166 (Python integer division). -/
def LANE_WIDTH : ℚ := 166

/-- LANE_WIDTH // 2 = 83 (Python integer division on ints). -/
def HALF_LANE : ℚ := 83

/-- FINISH_LINE_DISTANCE = 50000. -/
def FINISH_LINE_DISTANCE : ℚ := 50000

/-- The three lane center x positions, as built identically in
FuzzyLogicController, CSPDecisionMaker, AStarPathfinder and
MinimaxDecisionMaker: ROAD_X + LANE_WIDTH // 2, ROAD_X + LANE_WIDTH +
LANE_WIDTH // 2, ROAD_X + 2 * LANE_WIDTH + LANE_WIDTH // 2.  Indices
other than 0, 1, 2 never occur in the modelled code paths; the catch-all
arm mirrors index 2. -/
def lane_pos : ℕ → ℚ
  | 0 => ROAD_X + HALF_LANE
  | 1 => ROAD_X + LANE_WIDTH + HALF_LANE
  | _ => ROAD_X + 2 * LANE_WIDTH + HALF_LANE

/-- get_lane_from_x, defined with the same body in all four controller
classes (and as CSPDecisionMaker._get_current_lane): the first lane
whose center is strictly within LANE_WIDTH // 2 of x, defaulting to the
center lane 1. -/
def get_lane_from_x (x : ℚ) : ℕ :=
  if |x - lane_pos 0| < HALF_LANE then 0
  else if |x - lane_pos 1| < HALF_LANE then 1
  else if |x - lane_pos 2| < HALF_LANE then 2
  else 1

/-! ## World data -/

/-- TrafficCar: lane index, lane-derived x, longitudinal distance,
constant speed. -/
structure TrafficCar where
  lane : ℕ
  x : ℚ
  distance : ℚ
  speed : ℚ
deriving DecidableEq

/-- PowerUp: the fields read by the decision engine. -/
structure PowerUp where
  lane : ℕ
  distance : ℚ
  power_type : String
  for_police : Bool
  collected : Bool
deriving DecidableEq

/-- PowerUp.get_priority_value: the priority table of PowerUp.__init__,
with dict.get default 1.0. -/
def PowerUp.get_priority_value (p : PowerUp) : ℚ :=
  if p.power_type = "boost" then 1.2
  else if p.power_type = "shield" then 1.4
  else if p.power_type = "ghost" then 1.5
  else if p.power_type = "freeze" then 1.0
  else if p.power_type = "turbo" then 1.2
  else if p.power_type = "spike" then 1.1
  else if p.power_type = "emp" then 1.3
  else if p.power_type = "magnet" then 1.4
  else if p.power_type = "roadblock" then 1.0
  else 1.0

/-- Vehicle: the kinematic and tuning fields read and written by the
decision engine (display-only fields are omitted). -/
structure Vehicle where
  x : ℚ
  distance : ℚ
  speed : ℚ
  max_speed : ℚ
  acceleration_rate : ℚ
  brake_rate : ℚ
  is_police : Bool
  crashed : Bool
deriving DecidableEq

/-- ABSOLUTE_MAX_SPEED = 8.0 (200 km/h hard limit). -/
def ABSOLUTE_MAX_SPEED : ℚ := 8

/-- Vehicle.enforce_speed_limit: clamp to the absolute cap, then to
max_speed (the crash_timer/crash_spin resets touch fields not modelled
here). -/
def enforce_speed_limit (v : Vehicle) : Vehicle :=
  let s := if v.speed > ABSOLUTE_MAX_SPEED then ABSOLUTE_MAX_SPEED else v.speed
  let s := if s > v.max_speed then v.max_speed else s
  { v with speed := s }

/-! ## Minimax data model (GameState, actions, evaluation) -/

/-- GameState: the abstracted snapshot searched by Minimax.  traffic is
a list of (lane, distance) pairs, powerups a list of
(lane, distance, type, for_police) tuples. -/
structure GameState where
  police_lane : ℕ
  police_distance : ℚ
  thief_lane : ℕ
  thief_distance : ℚ
  police_speed : ℚ
  thief_speed : ℚ
  traffic : List (ℕ × ℚ)
  powerups : List (ℕ × ℚ × String × Bool)
deriving DecidableEq

/-- MinimaxAction: target lane, speed change tag, power-up flag. -/
structure MinimaxAction where
  lane : ℕ
  speed_change : String
  collect_powerup : Bool
deriving DecidableEq

/-- MinimaxDecisionMaker._is_terminal. -/
def is_terminal (s : GameState) : Bool :=
  if s.police_distance ≥ s.thief_distance - 30 then true
  else if s.thief_distance ≥ FINISH_LINE_DISTANCE then true
  else false

/-- MinimaxDecisionMaker._evaluate_state: the static evaluation from the
police perspective. -/
def evaluate_state (s : GameState) : ℚ :=
  let distance_diff := s.thief_distance - s.police_distance
  if distance_diff ≤ 0 then 10000
  else
    let score : ℚ := 0
    let score :=
      if distance_diff < 50 then score + (5000 - distance_diff * 80)
      else if distance_diff < 150 then score + (3000 - distance_diff * 15)
      else if distance_diff < 300 then score + (1500 - distance_diff * 4)
      else score + (500 - distance_diff * 1)
    let lane_diff : ℚ := |(s.police_lane : ℚ) - (s.thief_lane : ℚ)|
    let score := score - lane_diff * 150
    let speed_diff := s.police_speed - s.thief_speed
    let score := score + speed_diff * 50
    let counts := s.traffic.foldl (fun (acc : ℕ × ℕ) t =>
      if t.1 = s.police_lane then
        let d := t.2 - s.police_distance
        if 0 < d ∧ d < 150 then (acc.1 + 1, acc.2)
        else if 0 < d ∧ d < 300 then (acc.1, acc.2 + 1)
        else acc
      else acc) (0, 0)
    let score := score - (counts.1 : ℚ) * 800
    let score := score - (counts.2 : ℚ) * 200
    let thief_traffic_ahead := s.traffic.foldl (fun (acc : ℕ) t =>
      if t.1 = s.thief_lane ∧ 0 < t.2 - s.thief_distance ∧
          t.2 - s.thief_distance < 300 then acc + 1 else acc) 0
    let score := score + (thief_traffic_ahead : ℚ) * 80
    let score := s.powerups.foldl (fun (sc : ℚ) pw =>
      let pw_dist := pw.2.1
      let pw_type := pw.2.2.1
      let forp := pw.2.2.2
      if forp then
        let dtp := |pw_dist - s.police_distance|
        if dtp < 200 then
          if pw_type = "turbo" ∨ pw_type = "emp" then sc + (200 - dtp)
          else sc + (100 - dtp)
        else sc
      else
        let dtt := |pw_dist - s.thief_distance|
        if dtt < 200 then
          if pw_type = "freeze" ∨ pw_type = "boost" ∨ pw_type = "ghost" then
            sc - (250 - dtt)
          else sc - (120 - dtt)
        else sc) score
    let distance_to_finish := FINISH_LINE_DISTANCE - s.thief_distance
    let score :=
      if distance_to_finish < 5000 then score - (5000 - distance_to_finish) * 2
      else score
    let police_lane_clear := ¬ s.traffic.any (fun t =>
      t.1 = s.police_lane ∧ |t.2 - s.police_distance| < 400)
    let score := if police_lane_clear then score + 150 else score
    score

/-- MinimaxDecisionMaker._simulate_action: cheap planning transition;
only the acting side's lane, speed and distance change. -/
def simulate_action (s : GameState) (a : MinimaxAction) (is_police : Bool) :
    GameState :=
  if is_police then
    let speed :=
      if a.speed_change = "accelerate" then min (s.police_speed + 0.4) 8
      else if a.speed_change = "brake" then max (s.police_speed - 0.6) 3
      else s.police_speed
    { s with police_lane := a.lane, police_speed := speed,
             police_distance := s.police_distance + speed * 20 }
  else
    let speed :=
      if a.speed_change = "accelerate" then min (s.thief_speed + 0.4) 8
      else if a.speed_change = "brake" then max (s.thief_speed - 0.6) 3
      else s.thief_speed
    { s with thief_lane := a.lane, thief_speed := speed,
             thief_distance := s.thief_distance + speed * 20 }

/-- MinimaxDecisionMaker._count_traffic_ahead. -/
def count_traffic_ahead (s : GameState) (lane : ℕ) (distance : ℚ)
    (look_ahead : ℚ) : ℕ :=
  s.traffic.foldl (fun acc t =>
    if t.1 = lane ∧ 0 < t.2 - distance ∧ t.2 - distance < look_ahead
    then acc + 1 else acc) 0

/-- MinimaxDecisionMaker._powerup_nearby. -/
def powerup_nearby (s : GameState) (lane : ℕ) (is_police : Bool) : Bool :=
  s.powerups.any (fun pw =>
    pw.2.2.2 = is_police ∧ pw.1 = lane ∧
    (let current_dist := if is_police then s.police_distance else s.thief_distance
     0 < pw.2.1 - current_dist ∧ pw.2.1 - current_dist < 250))

/-- MinimaxDecisionMaker._generate_actions: lane options (stay, left,
right), three speed options; actions into a clearer lane are prepended
(list.insert(0, ...)), the rest appended, a power-up variant appended
when a relevant power-up is nearby; accelerating while staying in a lane
with more than two cars ahead is skipped. -/
def generate_actions (s : GameState) (is_police : Bool) : List MinimaxAction :=
  let current_lane := if is_police then s.police_lane else s.thief_lane
  let current_distance := if is_police then s.police_distance else s.thief_distance
  let lane_options := [current_lane]
    ++ (if current_lane > 0 then [current_lane - 1] else [])
    ++ (if current_lane < 2 then [current_lane + 1] else [])
  let speed_options := ["accelerate", "maintain", "brake"]
  let traffic_in_current := count_traffic_ahead s current_lane current_distance 250
  lane_options.foldl (fun acc lane =>
    let traffic_in_lane := count_traffic_ahead s lane current_distance 250
    speed_options.foldl (fun acc speed =>
      if lane = current_lane ∧ traffic_in_current > 2 ∧ speed = "accelerate" then
        acc
      else
        let acc :=
          if lane ≠ current_lane ∧ traffic_in_lane < traffic_in_current then
            ⟨lane, speed, false⟩ :: acc
          else
            acc ++ [⟨lane, speed, false⟩]
        if powerup_nearby s lane is_police then acc ++ [⟨lane, speed, true⟩]
        else acc) acc) []

/-- MinimaxDecisionMaker._minimax_alpha_beta.  The wall-clock budget
check (pygame.time.get_ticks against start_time/max_time) is modelled by
an arbitrary predicate timeUp on the number of nodes evaluated so far,
which is threaded through and returned.  Scores are extended rationals
because the running max/min start from the infinities. -/
def minimax_ab (timeUp : ℕ → Bool) (depth : ℕ) (state : GameState)
    (alpha beta : ERat) (maximizing : Bool) (nodes : ℕ) : ERat × ℕ :=
  let nodes := nodes + 1
  if depth = 0 ∨ is_terminal state then (.fin (evaluate_state state), nodes)
  else if timeUp nodes then (.fin (evaluate_state state), nodes)
  else
    match depth with
    | 0 => (.fin (evaluate_state state), nodes)
    | depth' + 1 =>
      if maximizing then
        let acts := generate_actions state true
        let r := acts.foldl (fun (acc : ERat × ERat × ℕ × Bool) action =>
          if acc.2.2.2 then acc
          else
            let new_state := simulate_action state action true
            let res := minimax_ab timeUp depth' new_state acc.2.1 beta false acc.2.2.1
            let maxEval := eratMax acc.1 res.1
            let alpha2 := eratMax acc.2.1 res.1
            (maxEval, alpha2, res.2, ERat.ble beta alpha2))
          ((.ninf : ERat), alpha, nodes, false)
        (r.1, r.2.2.1)
      else
        let acts := generate_actions state false
        let r := acts.foldl (fun (acc : ERat × ERat × ℕ × Bool) action =>
          if acc.2.2.2 then acc
          else
            let new_state := simulate_action state action false
            let res := minimax_ab timeUp depth' new_state alpha acc.2.1 true acc.2.2.1
            let minEval := eratMin acc.1 res.1
            let beta2 := eratMin acc.2.1 res.1
            (minEval, beta2, res.2, ERat.ble beta2 alpha))
          ((.pinf : ERat), beta, nodes, false)
        (r.1, r.2.2.1)
termination_by depth

/-- MinimaxDecisionMaker.get_best_move with max_depth = 3: evaluates
each root action at depth max_depth - 1 = 2, police maximizing / thief
minimizing, updating alpha (police) or beta (thief) at the root. -/
def get_best_move (timeUp : ℕ → Bool) (state : GameState) (is_police : Bool) :
    MinimaxAction :=
  let possible_actions := generate_actions state is_police
  let init : Option MinimaxAction × ERat × ERat × ERat × ℕ :=
    (none, if is_police then .ninf else .pinf, .ninf, .pinf, 0)
  let r := possible_actions.foldl (fun acc action =>
    let (best, bestVal, alpha, beta, nodes) := acc
    let new_state := simulate_action state action is_police
    if is_police then
      let res := minimax_ab timeUp 2 new_state alpha beta false nodes
      let bb := if ERat.blt bestVal res.1 then (some action, res.1)
                else (best, bestVal)
      (bb.1, bb.2, eratMax alpha res.1, beta, res.2)
    else
      let res := minimax_ab timeUp 2 new_state alpha beta true nodes
      let bb := if ERat.blt res.1 bestVal then (some action, res.1)
                else (best, bestVal)
      (bb.1, bb.2, alpha, eratMin beta res.1, res.2)) init
  r.1.getD (possible_actions.headD ⟨0, "maintain", false⟩)

/-! ## Fuzzy logic controller -/

/-- FuzzyLogicController.triangular_membership. -/
def triangular_membership (value left peak right : ℚ) : ℚ :=
  if value ≤ left ∨ value ≥ right then 0
  else if value = peak then 1
  else if value < peak then (value - left) / (peak - left)
  else (right - value) / (right - peak)

/-- FuzzyLogicController.trapezoidal_membership. -/
def trapezoidal_membership (value left left_top right_top right : ℚ) : ℚ :=
  if value ≤ left ∨ value ≥ right then 0
  else if left_top ≤ value ∧ value ≤ right_top then 1
  else if value < left_top then (value - left) / (left_top - left)
  else (right - value) / (right - right_top)

/-- Membership degrees of distance-to-traffic (VeryClose … VeryFar). -/
structure DistanceFuzzy where
  veryClose : ℚ
  close : ℚ
  medium : ℚ
  far : ℚ
  veryFar : ℚ

/-- FuzzyLogicController.fuzzify_distance_to_traffic. -/
def fuzzify_distance_to_traffic (distance : ℚ) : DistanceFuzzy where
  veryClose := trapezoidal_membership distance 0 0 80 160
  close := triangular_membership distance 130 220 310
  medium := triangular_membership distance 250 380 510
  far := triangular_membership distance 450 600 750
  veryFar := trapezoidal_membership distance 650 800 10000 10000

/-- Membership degrees of opponent proximity (ExtremelyClose … VeryFar). -/
structure OppFuzzy where
  extremelyClose : ℚ
  close : ℚ
  medium : ℚ
  far : ℚ
  veryFar : ℚ

/-- FuzzyLogicController.fuzzify_opponent_proximity. -/
def fuzzify_opponent_proximity (distance : ℚ) : OppFuzzy where
  extremelyClose := trapezoidal_membership distance 0 0 30 60
  close := triangular_membership distance 40 100 170
  medium := triangular_membership distance 120 225 330
  far := triangular_membership distance 250 450 650
  veryFar := trapezoidal_membership distance 500 700 10000 10000

/-- Membership degrees of relative speed (VerySlow … VeryFast). -/
structure SpeedFuzzy where
  verySlow : ℚ
  slow : ℚ
  medium : ℚ
  fast : ℚ
  veryFast : ℚ

/-- FuzzyLogicController.fuzzify_speed. -/
def fuzzify_speed (speed max_speed : ℚ) : SpeedFuzzy :=
  let speed_ratio := if max_speed > 0 then speed / max_speed else 0
  { verySlow := trapezoidal_membership speed_ratio 0 0 0.3 0.4
    slow := triangular_membership speed_ratio 0.3 0.5 0.65
    medium := triangular_membership speed_ratio 0.55 0.7 0.85
    fast := triangular_membership speed_ratio 0.75 0.9 1.0
    veryFast := trapezoidal_membership speed_ratio 0.9 0.95 1.2 1.2 }

/-- Membership degrees of road clearance (Blocked / PartlyBlocked /
Clear; the middle linguistic bucket of the source). -/
structure ClearanceFuzzy where
  blocked : ℚ
  partlyBlocked : ℚ
  clear : ℚ

/-- FuzzyLogicController.fuzzify_road_clearance on a clear-lane count. -/
def fuzzify_road_clearance (clear_lanes : ℕ) : ClearanceFuzzy where
  blocked := if clear_lanes = 0 then 1 else if clear_lanes = 1 then 0.5 else 0
  partlyBlocked := triangular_membership (clear_lanes : ℚ) 0 1 2
  clear := if clear_lanes ≥ 2 then 1 else if clear_lanes = 1 then 0.5 else 0

/-- Fuzzy output of the speed rule base (StrongBrake … StrongAccelerate). -/
structure AccelFuzzy where
  strongBrake : ℚ
  lightBrake : ℚ
  maintain : ℚ
  lightAccelerate : ℚ
  strongAccelerate : ℚ

/-- Fuzzy output of the lane-change rule base (VeryLow … VeryHigh). -/
structure LaneConfFuzzy where
  veryLow : ℚ
  low : ℚ
  medium : ℚ
  high : ℚ
  veryHigh : ℚ

/-- FuzzyLogicController.evaluate_speed_rules: the seventeen Mamdani
rules (min for AND, max to merge rules firing into a bucket), with the
police/thief specific rules 14-17. -/
def evaluate_speed_rules (df : DistanceFuzzy) (onf : OppFuzzy)
    (sf : SpeedFuzzy) (cf : ClearanceFuzzy) (is_police : Bool) : AccelFuzzy :=
  let sb : ℚ := 0
  let lb : ℚ := 0
  let mt : ℚ := 0
  let la : ℚ := 0
  let sa : ℚ := 0
  let sb := max sb (min df.veryClose sf.fast)
  let sb := max sb (min df.veryClose sf.medium)
  let sb := max sb (min df.close sf.veryFast)
  let sb := max sb (min cf.blocked sf.fast)
  let lb := max lb (min df.close sf.medium)
  let lb := max lb (min df.medium sf.veryFast)
  let lb := max lb (min cf.partlyBlocked sf.fast)
  let mt := max mt (min df.medium sf.medium)
  let mt := max mt (min df.far sf.fast)
  let la := max la (min df.far sf.slow)
  let sa := max sa (min df.veryFar (min cf.clear sf.medium))
  let sa := max sa (min df.veryFar (min cf.clear sf.slow))
  let sa := max sa (min df.far sf.verySlow)
  if is_police then
    let lb := max lb (min onf.extremelyClose sf.veryFast)
    let la := max la (min onf.close sf.slow)
    ⟨sb, lb, mt, la, sa⟩
  else
    let lb := max lb (min onf.extremelyClose df.close)
    let sa := max sa (min onf.veryFar df.far)
    ⟨sb, lb, mt, la, sa⟩

/-- FuzzyLogicController.defuzzify_acceleration: weighted centroid over
the crisp values -0.7, -0.3, 0.0, 0.3, 0.6; returns the neutral 0.0
when no rule fired. -/
def defuzzify_acceleration (fo : AccelFuzzy) : ℚ :=
  let numerator := (-0.7) * fo.strongBrake + (-0.3) * fo.lightBrake
    + 0 * fo.maintain + 0.3 * fo.lightAccelerate + 0.6 * fo.strongAccelerate
  let denominator := fo.strongBrake + fo.lightBrake + fo.maintain
    + fo.lightAccelerate + fo.strongAccelerate
  if denominator = 0 then 0 else numerator / denominator

/-- FuzzyLogicController.defuzzify_lane_confidence: weighted centroid
over the crisp percentages 10, 30, 50, 75, 95; returns 0 when no rule
fired. -/
def defuzzify_lane_confidence (fo : LaneConfFuzzy) : ℚ :=
  let numerator := 10 * fo.veryLow + 30 * fo.low + 50 * fo.medium
    + 75 * fo.high + 95 * fo.veryHigh
  let denominator := fo.veryLow + fo.low + fo.medium + fo.high + fo.veryHigh
  if denominator = 0 then 0 else numerator / denominator

/-- Helper of FuzzyLogicController.get_fuzzy_speed_control: whether a
lane has traffic ahead within the look-ahead window (the inner loop of
the clear-lane count). -/
def lane_has_traffic (v : Vehicle) (traffic : List TrafficCar)
    (lane : ℕ) (look_ahead : ℚ) : Bool :=
  traffic.any (fun car =>
    car.lane = lane ∧ 0 < car.distance - v.distance ∧
    car.distance - v.distance < look_ahead)

/-- FuzzyLogicController.get_fuzzy_speed_control: fuzzy acceleration in
[-1, 1] with the smart emergency modifiers. -/
def get_fuzzy_speed_control (v : Vehicle) (traffic : List TrafficCar)
    (opponent : Option Vehicle) (is_police : Bool) : ℚ :=
  let current_lane := get_lane_from_x v.x
  let look_ahead := 600 + v.speed * 70
  let scan := traffic.foldl (fun (acc : ℚ × ℕ × ℚ) car =>
    if car.lane = current_lane then
      let dist := car.distance - v.distance
      if 0 < dist ∧ dist < look_ahead then
        let acc := (acc.1, acc.2.1 + 1, acc.2.2)
        if dist < acc.1 then (dist, acc.2.1, car.speed) else acc
      else acc
    else acc) (10000, 0, 2.0)
  let min_traffic_distance := scan.1
  let obstacles_in_lane := scan.2.1
  let closest_obstacle_speed := scan.2.2
  let speed_difference := v.speed - closest_obstacle_speed
  let emergency_distance := 180 + speed_difference * 30
  let emergency_brake := min_traffic_distance < emergency_distance
  let traffic_jam := obstacles_in_lane ≥ 2 ∧ min_traffic_distance < 500
  let opponent_distance := match opponent with
    | some o => |o.distance - v.distance|
    | none => 10000
  let clear_lanes :=
    ((List.range 3).filter (fun l => ¬ lane_has_traffic v traffic l look_ahead)).length
  let distance_fuzzy := fuzzify_distance_to_traffic min_traffic_distance
  let opponent_fuzzy := fuzzify_opponent_proximity opponent_distance
  let speed_fuzzy := fuzzify_speed v.speed v.max_speed
  let clearance_fuzzy := fuzzify_road_clearance clear_lanes
  let fuzzy_output := evaluate_speed_rules distance_fuzzy opponent_fuzzy
    speed_fuzzy clearance_fuzzy is_police
  let acceleration := defuzzify_acceleration fuzzy_output
  if min_traffic_distance < 120 then -1
  else if emergency_brake ∧ speed_difference > 3 then min acceleration (-0.85)
  else if emergency_brake then min acceleration (-0.6)
  else if traffic_jam then min acceleration (-0.35)
  else acceleration

/-! ## CSP decision maker -/

/-- The duck-typed action dict of CSPDecisionMaker: target lane, its
center x, and a speed action tag. -/
structure CSPAction where
  lane : ℕ
  lane_x : ℚ
  speed_action : String
deriving DecidableEq

/-- The 3 x 3 action domain built at the top of solve_lane_decision
(lane 0..2, speed action accelerate/maintain/brake, in loop order). -/
def csp_actions : List CSPAction :=
  ((List.range 3).map (fun lane =>
    ["accelerate", "maintain", "brake"].map (fun sa =>
      ({ lane := lane, lane_x := lane_pos lane, speed_action := sa } : CSPAction)))).flatten

/-- CSPDecisionMaker._satisfies_hard_constraints (the opponent and
is_police parameters of the source are unused by its body and omitted):
no occupied target space unless ghost mode, lane center on the road, no
two-lane jump above speed 6. -/
def satisfies_hard_constraints (a : CSPAction) (v : Vehicle)
    (traffic : List TrafficCar) (ghost_mode : Bool) : Bool :=
  let c1 := ghost_mode ∨ ¬ traffic.any (fun car =>
    get_lane_from_x car.x = a.lane ∧
    |car.distance - v.distance| < 120 ∧ |car.x - a.lane_x| < 40)
  let c2 := ¬ (a.lane_x < ROAD_X + 35 ∨ a.lane_x > ROAD_X + ROAD_WIDTH - 35)
  let c3 :=
    let current_lane := get_lane_from_x v.x
    ¬ (((a.lane : ℤ) - (current_lane : ℤ)).natAbs > 1 ∧ v.speed > 6)
  c1 ∧ c2 ∧ c3

/-- CSPDecisionMaker._score_police_pursuit. -/
def score_police_pursuit (a : CSPAction) (v : Vehicle)
    (opponent : Option Vehicle) : ℚ :=
  match opponent with
  | none => 0
  | some opp =>
    let score : ℚ := 0
    let thief_lane := get_lane_from_x opp.x
    let score :=
      if a.lane = thief_lane then score + 50
      else score - (((a.lane : ℤ) - (thief_lane : ℤ)).natAbs : ℚ) * 15
    let distance_to_thief := |opp.distance - v.distance|
    let score :=
      if a.speed_action = "accelerate" ∧ distance_to_thief > 100 then score + 30
      else if a.speed_action = "maintain" ∧ distance_to_thief < 100 then score + 20
      else score
    if opp.distance > v.distance ∧ a.lane = thief_lane then score + 40 else score

/-- CSPDecisionMaker._score_thief_escape. -/
def score_thief_escape (a : CSPAction) (v : Vehicle)
    (opponent : Option Vehicle) : ℚ :=
  match opponent with
  | none => 0
  | some opp =>
    let police_lane := get_lane_from_x opp.x
    let score : ℚ := if a.lane ≠ police_lane then 35 else -25
    let distance_to_police := |opp.distance - v.distance|
    let score :=
      if distance_to_police > 200 ∧ a.speed_action = "accelerate" then score + 25
      else if distance_to_police < 150 ∧ a.lane ≠ police_lane then score + 40
      else score
    if v.distance > opp.distance then score + 20 else score

/-- CSPDecisionMaker._score_powerup_collection. -/
def score_powerup_collection (a : CSPAction) (v : Vehicle)
    (powerups : List PowerUp) : ℚ :=
  powerups.foldl (fun score p =>
    if p.collected then score
    else if v.is_police ∧ ¬ p.for_police then score
    else if ¬ v.is_police ∧ p.for_police then score
    else
      let distance_to_powerup := p.distance - v.distance
      if 0 < distance_to_powerup ∧ distance_to_powerup < 600 then
        if a.lane = p.lane then
          let proximity_bonus := max 0 (50 - distance_to_powerup / 10)
          let score := score + proximity_bonus
          if v.is_police then
            if p.power_type = "emp" then score + 18
            else if p.power_type = "turbo" then score + 15
            else if p.power_type = "magnet" then score + 14
            else if p.power_type = "spike" then score + 12
            else if p.power_type = "roadblock" then score + 10
            else score
          else
            if p.power_type = "freeze" then score + 15
            else if p.power_type = "shield" then score + 12
            else if p.power_type = "boost" then score + 10
            else score
        else score
      else score) 0

/-- CSPDecisionMaker._score_traffic_clearance. -/
def score_traffic_clearance (a : CSPAction) (v : Vehicle)
    (traffic : List TrafficCar) : ℚ :=
  let scan := traffic.foldl (fun (acc : ℚ × ℕ) car =>
    if get_lane_from_x car.x = a.lane then
      let distance_to_car := car.distance - v.distance
      if 0 < distance_to_car ∧ distance_to_car < 400 then
        (min acc.1 distance_to_car, acc.2 + 1)
      else acc
    else acc) (1000, 0)
  let min_clearance := scan.1
  let traffic_ahead_count := scan.2
  let score : ℚ :=
    if min_clearance > 300 then 30
    else if min_clearance > 200 then 20
    else if min_clearance > 100 then 10
    else -20
  score - (traffic_ahead_count : ℚ) * 8

/-- CSPDecisionMaker._score_speed_optimization. -/
def score_speed_optimization (a : CSPAction) (v : Vehicle) : ℚ :=
  if a.speed_action = "accelerate" ∧ v.speed < v.max_speed * 0.9 then 15
  else if a.speed_action = "maintain" ∧ v.speed > v.max_speed * 0.7 then 10
  else if a.speed_action = "brake" then -5
  else 0

/-- CSPDecisionMaker._score_lane_preference. -/
def score_lane_preference (a : CSPAction) (v : Vehicle) : ℚ :=
  let score : ℚ := if a.lane = 1 then 5 else 0
  let current_lane := get_lane_from_x v.x
  if a.lane ≠ current_lane then score - 3 else score

/-- CSPDecisionMaker._calculate_utility_score. -/
def calculate_utility_score (a : CSPAction) (v : Vehicle)
    (traffic : List TrafficCar) (powerups : List PowerUp)
    (opponent : Option Vehicle) (is_police : Bool) : ℚ :=
  let score :=
    if is_police then score_police_pursuit a v opponent
    else score_thief_escape a v opponent + score_powerup_collection a v powerups
  score + score_traffic_clearance a v traffic
    + score_speed_optimization a v + score_lane_preference a v

/-- CSPDecisionMaker.solve_lane_decision: filter the 9 actions by the
hard constraints; if none remain, fall back to braking in the current
lane; otherwise return the (first) utility-maximal action, like
Python's max with a key. -/
def solve_lane_decision (v : Vehicle) (traffic : List TrafficCar)
    (powerups : List PowerUp) (opponent : Option Vehicle)
    (ghost_mode : Bool) (is_police : Bool) : CSPAction :=
  let valid_actions := csp_actions.filter
    (fun a => satisfies_hard_constraints a v traffic ghost_mode)
  match valid_actions with
  | [] =>
    let current_lane := get_lane_from_x v.x
    { lane := current_lane, lane_x := lane_pos current_lane,
      speed_action := "brake" }
  | a :: rest =>
    pyMax1 (fun a => calculate_utility_score a v traffic powerups opponent is_police)
      a rest

/-! ## Predictive safety layer -/

/-- The per-lane record of predictive_safety_check.  Of each obstacle
entry only the time_to_collision field is ever read back (for the
min_ttc output), so the obstacle list is modelled by that field. -/
structure LaneData where
  obstacles_ttc : List ERat
  min_distance : ERat
  is_safe : Bool
  risk_score : ℚ
deriving DecidableEq

/-- A fresh lane record: no obstacles, infinite clearance, safe, risk 0. -/
def LaneData.init : LaneData := ⟨[], .pinf, true, 0⟩

/-- The three-lane analysis dict keyed 0, 1, 2. -/
abbrev LaneAnalysis := LaneData × LaneData × LaneData

/-- Read a lane record.  A lane key outside 0..2 would be a KeyError in
the source and never occurs on the modelled paths; the catch-all arm
returns lane 2's record. -/
def laneGet (la : LaneAnalysis) : ℕ → LaneData
  | 0 => la.1
  | 1 => la.2.1
  | _ => la.2.2

/-- Write a lane record (same caveat on keys outside 0..2). -/
def laneSet (la : LaneAnalysis) : ℕ → LaneData → LaneAnalysis
  | 0, d => (d, la.2.1, la.2.2)
  | 1, d => (la.1, d, la.2.2)
  | _, d => (la.1, la.2.1, d)

/-- The recommended_action dict of predictive_safety_check. -/
structure RecommendedAction where
  brake_intensity : ℚ
  should_change_lane : Bool
  target_lanes : List ℕ
  urgency : String
deriving DecidableEq

/-- The safety analysis dict returned by predictive_safety_check. -/
structure SafetyAnalysis where
  danger_detected : Bool
  time_to_collision : ERat
  current_lane : ℕ
  current_lane_safe : Bool
  current_lane_risk : ℚ
  safe_lanes : List ℕ
  lane_analysis : LaneAnalysis
  recommended_action : RecommendedAction
  prediction_frames : ℤ
  predicted_distance : ℚ
deriving DecidableEq

/-- Vehicle.predictive_safety_check: forward-simulates relative motion
per lane, accumulates risk, flags unsafe lanes, and recommends urgency,
brake intensity and lane change.  The fuzzy_controller argument of the
source is used only for get_lane_from_x, which is shared here.  When
the relative speed is not above 0.1 the source's time_to_collision is
float infinity and the predicted-gap block is skipped (its comparison
with prediction_frames is false), which the ERat match mirrors. -/
def predictive_safety_check (v : Vehicle) (traffic : List TrafficCar) :
    SafetyAnalysis :=
  let current_lane := get_lane_from_x v.x
  let base_prediction_frames : ℚ := 40
  let speed_multiplier := max 1 (v.speed / 4)
  let prediction_frames := pyInt (base_prediction_frames * speed_multiplier)
  let predicted_distance := v.distance + v.speed * (prediction_frames : ℚ)
  let critical_distance := 150 + v.speed * 20
  let warning_distance := 300 + v.speed * 35
  let safe_distance := 500 + v.speed * 50
  let lane_width : ℚ := 166
  let max_steering_speed : ℚ := 14
  let frames_to_change_lane := lane_width / max_steering_speed
  let distance_traveled_during_change := v.speed * frames_to_change_lane
  let la0 : LaneAnalysis := (LaneData.init, LaneData.init, LaneData.init)
  let la := traffic.foldl (fun la car =>
    let relative_distance := car.distance - v.distance
    if 0 < relative_distance ∧
        relative_distance < predicted_distance - v.distance + 200 then
      let traffic_speed := car.speed
      let relative_speed := v.speed - traffic_speed
      let ttc : ERat :=
        if relative_speed > 0.1 then .fin (relative_distance / relative_speed)
        else .pinf
      let ld := laneGet la car.lane
      let ld := { ld with obstacles_ttc := ld.obstacles_ttc ++ [ttc] }
      let ld :=
        if ERat.blt (.fin relative_distance) ld.min_distance then
          { ld with min_distance := .fin relative_distance }
        else ld
      let ld := match ttc with
        | .fin t =>
          if t < (prediction_frames : ℚ) then
            let obstacle_future_distance := car.distance + traffic_speed * t
            let vehicle_future_distance := v.distance + v.speed * t
            let predicted_gap := obstacle_future_distance - vehicle_future_distance
            if predicted_gap < 100 then
              { ld with risk_score := ld.risk_score + 1000, is_safe := false }
            else if predicted_gap < 200 then
              { ld with risk_score := ld.risk_score + 500, is_safe := false }
            else if predicted_gap < 300 then
              { ld with risk_score := ld.risk_score + 200 }
            else ld
          else ld
        | _ => ld
      let ld :=
        if relative_distance < critical_distance then
          { ld with risk_score := ld.risk_score + 800, is_safe := false }
        else if relative_distance < warning_distance then
          { ld with risk_score := ld.risk_score + 300 }
        else ld
      laneSet la car.lane ld
    else la) la0
  let la := (List.range 3).foldl (fun la target_lane =>
    if target_lane ≠ current_lane then
      traffic.foldl (fun la car =>
        if car.lane = target_lane then
          let relative_distance := car.distance - v.distance
          if -100 < relative_distance ∧
              relative_distance < distance_traveled_during_change + 100 then
            let ld := laneGet la target_lane
            laneSet la target_lane
              { ld with risk_score := ld.risk_score + 2000, is_safe := false }
          else la
        else la) la
    else la) la
  let current_lane_info := laneGet la current_lane
  let danger_detected := ¬ current_lane_info.is_safe
  let safe_lanes := (List.range 3).filter (fun l => (laneGet la l).is_safe)
  let safe_lanes :=
    if safe_lanes.isEmpty then
      match pyMinBy (fun l => (laneGet la l).risk_score) [0, 1, 2] with
      | some safest_lane => [safest_lane]
      | none => []
    else safe_lanes
  let min_ttc := current_lane_info.obstacles_ttc.foldl
    (fun m t => if ERat.blt t m then t else m) .pinf
  let ra : RecommendedAction :=
    { brake_intensity := 0, should_change_lane := false,
      target_lanes := safe_lanes, urgency := "none" }
  let ra :=
    if danger_detected then
      if ERat.blt current_lane_info.min_distance (.fin critical_distance) then
        { ra with urgency := "critical", brake_intensity := 1,
                  should_change_lane := ¬ safe_lanes.contains current_lane }
      else if ERat.blt current_lane_info.min_distance (.fin warning_distance) then
        { ra with urgency := "high", brake_intensity := 0.7,
                  should_change_lane :=
                    safe_lanes.length > 0 ∧ ¬ safe_lanes.contains current_lane }
      else
        { ra with urgency := "moderate", brake_intensity := 0.4,
                  should_change_lane := ¬ safe_lanes.contains current_lane }
    else if ERat.blt current_lane_info.min_distance (.fin safe_distance) then
      { ra with urgency := "low", brake_intensity := 0.2 }
    else ra
  { danger_detected := danger_detected
    time_to_collision := min_ttc
    current_lane := current_lane
    current_lane_safe := current_lane_info.is_safe
    current_lane_risk := current_lane_info.risk_score
    safe_lanes := safe_lanes
    lane_analysis := la
    recommended_action := ra
    prediction_frames := prediction_frames
    predicted_distance := predicted_distance }

/-- Vehicle._execute_safety_override: maximum braking (the brake
intensity read by the source is not used by its formula), emergency lane
change toward the nearest safe lane at steering speed 14, then the speed
limit.  safe_lanes is never empty coming from predictive_safety_check;
Python's min would raise on an empty list and the none arm keeps the
vehicle unchanged. -/
def execute_safety_override (v : Vehicle) (safety_check : SafetyAnalysis) :
    Vehicle :=
  let current_lane := get_lane_from_x v.x
  let v := { v with speed := max (v.speed - v.brake_rate * 2.0) (v.max_speed * 0.25) }
  let new_x :=
    if safety_check.recommended_action.should_change_lane then
      match pyMinBy (fun (l : ℕ) => (((l : ℤ) - (current_lane : ℤ)).natAbs : ℚ))
          safety_check.safe_lanes with
      | none => v.x
      | some target_lane =>
        let target_x := lane_pos target_lane
        if |target_x - v.x| > 5 then
          let steering_speed : ℚ := 14
          if target_x < v.x then max (ROAD_X + 35) (v.x - steering_speed)
          else min (ROAD_X + ROAD_WIDTH - 35) (v.x + steering_speed)
        else v.x
    else v.x
  let v := { v with x := new_x }
  enforce_speed_limit v

/-- Vehicle._execute_safety_influenced_decision (the weights argument of
the source is unused by its body): proportional braking by brake
intensity, lane change toward the nearest safe lane at an urgency-scaled
steering speed, then the speed limit. -/
def execute_safety_influenced_decision (v : Vehicle)
    (safety_check : SafetyAnalysis) : Vehicle :=
  let current_lane := get_lane_from_x v.x
  let brake_intensity := safety_check.recommended_action.brake_intensity
  let new_speed :=
    if brake_intensity > 0.6 then
      max (v.speed - v.brake_rate * 1.3) (v.max_speed * 0.40)
    else if brake_intensity > 0.3 then
      max (v.speed - v.brake_rate * 0.8) (v.max_speed * 0.60)
    else if brake_intensity > 0 then
      max (v.speed - v.brake_rate * 0.4) (v.max_speed * 0.75)
    else v.speed
  let v := { v with speed := new_speed }
  let new_x :=
    if safety_check.recommended_action.should_change_lane then
      if ¬ safety_check.safe_lanes.isEmpty then
        match pyMinBy (fun (l : ℕ) => (((l : ℤ) - (current_lane : ℤ)).natAbs : ℚ))
            safety_check.safe_lanes with
        | none => v.x
        | some target_lane =>
          let target_x := lane_pos target_lane
          if |target_x - v.x| > 5 then
            let urgency := safety_check.recommended_action.urgency
            let steering_speed : ℚ :=
              if urgency = "high" then 12
              else if urgency = "moderate" then 9
              else 7
            if target_x < v.x then max (ROAD_X + 35) (v.x - steering_speed)
            else min (ROAD_X + ROAD_WIDTH - 35) (v.x + steering_speed)
          else v.x
      else v.x
    else v.x
  let v := { v with x := new_x }
  enforce_speed_limit v

/-! ## A* pathfinder -/

/-- AStarNode: (lane, distance) state with path cost g, heuristic h,
total f = g + h and a parent link for path reconstruction. -/
inductive AStarNode : Type where
  | mk (lane : ℕ) (distance : ℚ) (g_cost : ℚ) (h_cost : ℚ) (f_cost : ℚ)
      (parent : Option AStarNode) : AStarNode

instance : Inhabited AStarNode := ⟨.mk 0 0 0 0 0 none⟩

/-- Lane of a node. -/
def AStarNode.lane : AStarNode → ℕ
  | .mk l _ _ _ _ _ => l

/-- Distance of a node. -/
def AStarNode.distance : AStarNode → ℚ
  | .mk _ d _ _ _ _ => d

/-- Path cost g of a node. -/
def AStarNode.g_cost : AStarNode → ℚ
  | .mk _ _ g _ _ _ => g

/-- Total cost f of a node. -/
def AStarNode.f_cost : AStarNode → ℚ
  | .mk _ _ _ _ f _ => f

/-- Parent link of a node. -/
def AStarNode.parent : AStarNode → Option AStarNode
  | .mk _ _ _ _ _ p => p

/-- The AStarNode constructor: f_cost = g_cost + h_cost. -/
def AStarNode.make (lane : ℕ) (distance g h : ℚ) (parent : Option AStarNode) :
    AStarNode :=
  .mk lane distance g h (g + h) parent

/-- AStarNode.__lt__: ordering by f_cost, as used by heapq. -/
def nodeLt (a b : AStarNode) : Bool := decide (a.f_cost < b.f_cost)

/-- The inner loop of heapq._siftdown: move the new item toward the
root while it is smaller than its parent.  The fuel bounds the loop (the
position strictly decreases, so the heap size suffices). -/
def siftdownLoop : ℕ → Array AStarNode → ℕ → ℕ → AStarNode → Array AStarNode
  | 0, heap, _, pos, newitem => heap.setD pos newitem
  | fuel + 1, heap, startpos, pos, newitem =>
    if startpos < pos then
      let parentpos := (pos - 1) / 2
      let parent := heap.getD parentpos default
      if nodeLt newitem parent then
        siftdownLoop fuel (heap.setD pos parent) startpos parentpos newitem
      else heap.setD pos newitem
    else heap.setD pos newitem

/-- The loop of heapq._siftup: move the smaller child up until a leaf is
reached, then restore the new item with _siftdown. -/
def siftupLoop : ℕ → Array AStarNode → ℕ → AStarNode → ℕ → Array AStarNode
  | 0, heap, pos, newitem, startpos =>
    siftdownLoop heap.size (heap.setD pos newitem) startpos pos newitem
  | fuel + 1, heap, pos, newitem, startpos =>
    let endpos := heap.size
    let childpos := 2 * pos + 1
    if childpos < endpos then
      let rightpos := childpos + 1
      let childpos :=
        if rightpos < endpos ∧
            ¬ nodeLt (heap.getD childpos default) (heap.getD rightpos default)
        then rightpos else childpos
      siftupLoop fuel (heap.setD pos (heap.getD childpos default)) childpos
        newitem startpos
    else
      siftdownLoop heap.size (heap.setD pos newitem) startpos pos newitem

/-- heapq.heappush. -/
def heappush (heap : Array AStarNode) (item : AStarNode) : Array AStarNode :=
  let heap := heap.push item
  siftdownLoop heap.size heap 0 (heap.size - 1) item

/-- heapq.heappop: none on an empty heap (where Python would raise;
find_path only pops under a non-emptiness guard). -/
def heappop (heap : Array AStarNode) : Option (AStarNode × Array AStarNode) :=
  match heap.back? with
  | none => none
  | some lastelt =>
    let heap := heap.pop
    if heap.size = 0 then some (lastelt, heap)
    else
      let returnitem := heap.getD 0 default
      let heap := heap.setD 0 lastelt
      some (returnitem, siftupLoop heap.size heap 0 lastelt 0)

/-- AStarPathfinder.manhattan_distance: |Δlane| × LANE_WIDTH + |Δdistance|. -/
def manhattan_distance (current_lane : ℕ) (current_distance : ℚ)
    (goal_lane : ℕ) (goal_distance : ℚ) : ℚ :=
  (((current_lane : ℤ) - (goal_lane : ℤ)).natAbs : ℚ) * LANE_WIDTH
    + |goal_distance - current_distance|

/-- AStarPathfinder.find_clearest_lane: per lane the count of traffic
ahead within the look-ahead window and the minimal such distance, then
a stable sort on (count, -min_distance); returns the first entry. -/
def find_clearest_lane (current_distance : ℚ) (traffic : List TrafficCar)
    (look_ahead : ℚ) : ℕ × ℕ × ERat :=
  let lane_info := (List.range 3).map (fun lane_idx =>
    let stats := traffic.foldl (fun (acc : ℕ × ERat) car =>
      if car.lane = lane_idx then
        let distance_to_car := car.distance - current_distance
        if 0 < distance_to_car ∧ distance_to_car < look_ahead then
          (acc.1 + 1, eratMin acc.2 (.fin distance_to_car))
        else acc
      else acc) (0, .pinf)
    (lane_idx, stats.1, stats.2))
  let keyLe : ℕ × ℕ × ERat → ℕ × ℕ × ERat → Bool := fun a b =>
    a.2.1 < b.2.1 ∨ (a.2.1 = b.2.1 ∧ ERat.ble b.2.2 a.2.2)
  ((pySort keyLe lane_info).headD (0, 0, .pinf))

/-- AStarPathfinder.is_position_safe: speed-scaled same-lane envelope,
tight adjacent-lane side-collision envelope, opponent envelope; ghost
mode passes everything. -/
def is_position_safe (lane : ℕ) (distance : ℚ) (traffic : List TrafficCar)
    (opponent : Option Vehicle) (ghost_mode : Bool) (vehicle_speed : ℚ) :
    Bool :=
  if ghost_mode then true
  else
    let base_margin : ℚ := 280
    let speed_margin := base_margin + vehicle_speed * 40
    if traffic.any (fun car =>
        (car.lane = lane ∧ |car.distance - distance| < speed_margin) ∨
        (((car.lane : ℤ) - (lane : ℤ)).natAbs = 1 ∧
          |car.distance - distance| < 80)) then
      false
    else
      match opponent with
      | some opp =>
        let opponent_lane := get_lane_from_x opp.x
        ¬ (lane = opponent_lane ∧ |opp.distance - distance| < 180)
      | none => true

/-- AStarPathfinder.calculate_path_cost: distance delta, speed-scaled
lane-change penalty, tiered traffic-proximity penalties with jam
detection and a clear-lane discount, opponent-interaction term; at
least 1. -/
def calculate_path_cost (current_node : AStarNode) (next_lane : ℕ)
    (next_distance : ℚ) (traffic : List TrafficCar)
    (opponent : Option Vehicle) (ghost_mode : Bool) (is_police : Bool)
    (vehicle_speed : ℚ) : ℚ :=
  let distance_cost := |next_distance - current_node.distance|
  let lane_change_cost : ℚ :=
    if next_lane ≠ current_node.lane then 30 + vehicle_speed * 5 else 0
  let traffic_penalty : ℚ :=
    if ghost_mode then 0
    else
      let critical_zone := 150 + vehicle_speed * 25
      let close_zone := 280 + vehicle_speed * 30
      let medium_zone := 420 + vehicle_speed * 35
      let far_zone := 560 + vehicle_speed * 40
      let scan := traffic.foldl (fun (acc : ℚ × ℕ) car =>
        let acc :=
          if car.lane = next_lane then
            let distance_diff := |car.distance - next_distance|
            if distance_diff < critical_zone then (acc.1 + 900, acc.2 + 1)
            else if distance_diff < close_zone then (acc.1 + 550, acc.2 + 1)
            else if distance_diff < medium_zone then (acc.1 + 280, acc.2)
            else if distance_diff < far_zone then (acc.1 + 100, acc.2)
            else acc
          else acc
        if ((car.lane : ℤ) - (next_lane : ℤ)).natAbs = 1 then
          let distance_diff := |car.distance - next_distance|
          if distance_diff < 70 then (acc.1 + 600, acc.2)
          else if distance_diff < 130 then (acc.1 + 180, acc.2)
          else acc
        else acc) (0, 0)
      let traffic_penalty := scan.1
      let obstacles_nearby := scan.2
      let traffic_penalty :=
        if obstacles_nearby ≥ 2 then traffic_penalty + 350 else traffic_penalty
      let clear_distance := 500 + vehicle_speed * 40
      let lane_clear := ¬ traffic.any (fun car =>
        car.lane = next_lane ∧ |car.distance - next_distance| < clear_distance)
      if lane_clear then traffic_penalty - 30 else traffic_penalty
  let opponent_cost : ℚ :=
    match opponent with
    | none => 0
    | some opp =>
      let distance_to_opponent := next_distance - opp.distance
      if is_police then
        if distance_to_opponent > 0 then 500 + distance_to_opponent * 2
        else -(|distance_to_opponent| * 0.1)
      else
        if distance_to_opponent > 0 then -20
        else |distance_to_opponent| * 0.2
  max 1 (distance_cost + lane_change_cost + traffic_penalty + opponent_cost)

/-- AStarPathfinder._generate_neighbors: forward by an adaptive step in
the current lane (unless overshooting the goal by more than 100), plus
the same forward step combined with a change to each adjacent lane. -/
def generate_neighbors (current_node : AStarNode) (goal_distance : ℚ) :
    List (ℕ × ℚ) :=
  let current_lane := current_node.lane
  let current_distance := current_node.distance
  let distance_to_goal := |goal_distance - current_distance|
  let step_size : ℚ :=
    if distance_to_goal > 1000 then 100
    else if distance_to_goal > 300 then 50
    else 20
  let next_distance := current_distance + step_size
  let fwd :=
    if next_distance ≤ goal_distance + 100 then [(current_lane, next_distance)]
    else []
  let left :=
    if 1 ≤ current_lane ∧ current_lane - 1 ≤ 2 then
      [(current_lane - 1, next_distance)]
    else []
  let right :=
    if current_lane + 1 ≤ 2 then [(current_lane + 1, next_distance)] else []
  fwd ++ left ++ right

/-- Path reconstruction of find_path: walk the parent links collecting
(lane, distance), then reverse, so the start comes first. -/
def reconstruct : AStarNode → List (ℕ × ℚ)
  | .mk lane distance _ _ _ parent =>
    (match parent with
     | none => []
     | some p => reconstruct p) ++ [(lane, distance)]

/-- Set a key in the best_g_cost dict (association list). -/
def assocSet (m : List ((ℕ × ℚ) × ℚ)) (k : ℕ × ℚ) (val : ℚ) :
    List ((ℕ × ℚ) × ℚ) :=
  ((k, val)) :: m.filter (fun e => e.1 ≠ k)

/-- Look a key up in the best_g_cost dict. -/
def assocGet (m : List ((ℕ × ℚ) × ℚ)) (k : ℕ × ℚ) : Option ℚ :=
  (m.find? (fun e => e.1 = k)).map (fun e => e.2)

/-- The search loop of AStarPathfinder.find_path.  The fuel plays the
role of the iteration bound (max_iterations - iterations); when it runs
out, or when the open set empties, the two-point fallback path is
returned.  The popped node is destructured into its fields once, like
the source's single local current_node, and rebuilt where the node value
itself is needed.  hfun is the object's calculate_heuristic on
(lane, distance, goal_lane, goal_distance) — Manhattan for the thief,
Euclidean for the police; the closed-set keys discretize the distance
with Python int(d / 50). -/
def find_path_loop (hfun : ℕ → ℚ → ℕ → ℚ → ℚ) (goal_lane : ℕ) (goal_distance : ℚ)
    (traffic : List TrafficCar) (opponent : Option Vehicle)
    (ghost_mode : Bool) (is_police : Bool) (vehicle_speed : ℚ)
    (start_lane : ℕ) (start_distance : ℚ) :
    ℕ → Array AStarNode → List (ℕ × ℤ) → List ((ℕ × ℚ) × ℚ) → List (ℕ × ℚ)
  | 0, _, _, _ => [(start_lane, start_distance), (goal_lane, goal_distance)]
  | fuel + 1, open_set, closed_set, best_g_cost =>
    match heappop open_set with
    | none => [(start_lane, start_distance), (goal_lane, goal_distance)]
    | some (popped, open_set) =>
      match popped with
      | .mk clane cdist cg ch cf cparent =>
      let current_node := AStarNode.mk clane cdist cg ch cf cparent
      if |cdist - goal_distance| < 100 ∧ clane = goal_lane then
        reconstruct current_node
      else
        let state := (clane, pyInt (cdist / 50))
        if closed_set.contains state then
          find_path_loop hfun goal_lane goal_distance traffic opponent
            ghost_mode is_police vehicle_speed start_lane start_distance
            fuel open_set closed_set best_g_cost
        else
          let closed_set := state :: closed_set
          let neighbors := generate_neighbors current_node goal_distance
          let pushed := neighbors.foldl
            (fun (acc : Array AStarNode × List ((ℕ × ℚ) × ℚ)) nb =>
              let next_lane := nb.1
              let next_distance := nb.2
              if ¬ is_position_safe next_lane next_distance traffic opponent
                  ghost_mode vehicle_speed then acc
              else
                let move_cost := calculate_path_cost current_node next_lane
                  next_distance traffic opponent ghost_mode is_police
                  vehicle_speed
                let new_g_cost := cg + move_cost
                let state_key := (next_lane, (pyInt (next_distance / 50) : ℚ))
                let skip := match assocGet acc.2 state_key with
                  | some old => decide (new_g_cost ≥ old)
                  | none => false
                if skip then acc
                else
                  let best := assocSet acc.2 state_key new_g_cost
                  let h_cost := hfun next_lane next_distance goal_lane goal_distance
                  let new_node := AStarNode.make next_lane next_distance
                    new_g_cost h_cost (some current_node)
                  (heappush acc.1 new_node, best))
            (open_set, best_g_cost)
          find_path_loop hfun goal_lane goal_distance traffic opponent
            ghost_mode is_police vehicle_speed start_lane start_distance
            fuel pushed.1 closed_set pushed.2

/-- AStarPathfinder.find_path with max_iterations = 200.  The initial
best_g_cost dict is keyed on the raw (start_lane, start_distance) pair,
exactly as in the source (later keys use the discretized distance). -/
def find_path (hfun : ℕ → ℚ → ℕ → ℚ → ℚ) (start_lane : ℕ) (start_distance : ℚ)
    (goal_lane : ℕ) (goal_distance : ℚ) (traffic : List TrafficCar)
    (opponent : Option Vehicle) (ghost_mode : Bool) (is_police : Bool)
    (vehicle_speed : ℚ) : List (ℕ × ℚ) :=
  let start_h := hfun start_lane start_distance goal_lane goal_distance
  let start_node := AStarNode.make start_lane start_distance 0 start_h none
  let open_set := heappush #[] start_node
  find_path_loop hfun goal_lane goal_distance traffic opponent ghost_mode
    is_police vehicle_speed start_lane start_distance
    200 open_set [] [((start_lane, start_distance), 0)]

/-! ## Vehicle decision methods -/

/-- Vehicle.is_lane_safe_for_powerup: no traffic ahead in the target
lane within the lookahead. -/
def is_lane_safe_for_powerup (v : Vehicle) (target_lane : ℕ)
    (traffic : List TrafficCar) (lookahead : ℚ) : Bool :=
  ¬ traffic.any (fun car =>
    car.lane = target_lane ∧ 0 < car.distance - v.distance ∧
    car.distance - v.distance < lookahead)

/-- Vehicle.choose_best_power: the best own-role uncollected power-up
within 400 units by priority × inverse distance minus a lane risk; none
when no candidate scores above 0.  (The lane_positions argument of the
source is unused by its body.) -/
def choose_best_power (v : Vehicle) (powers : List PowerUp)
    (traffic : List TrafficCar) : Option PowerUp :=
  (powers.foldl (fun (acc : Option PowerUp × ℚ) p =>
    if p.collected then acc
    else if v.is_police ∧ ¬ p.for_police then acc
    else if ¬ v.is_police ∧ p.for_police then acc
    else
      let dist := |p.distance - v.distance|
      if dist > 400 then acc
      else
        let value := p.get_priority_value
        let closeness := 1 / (dist + 1)
        let lane_risk : ℚ :=
          if is_lane_safe_for_powerup v p.lane traffic 250 then 0 else 1.2
        let score := value * closeness - lane_risk
        if score > acc.2 then (some p, score) else acc) (none, 0)).1

/-- The emergency branch shared by ai_decision_csp (critical or high),
ai_decision_fuzzy (critical or high) and ai_decision_astar (critical or
high): tiered braking by brake intensity, emergency lane change at
steering speed 14, speed limit. -/
def emergency_tiered_override (v : Vehicle) (safety_check : SafetyAnalysis) :
    Vehicle :=
  let current_lane := get_lane_from_x v.x
  let brake_intensity := safety_check.recommended_action.brake_intensity
  let new_speed :=
    if brake_intensity > 0.8 then
      max (v.speed - v.brake_rate * 2.0) (v.max_speed * 0.25)
    else if brake_intensity > 0.5 then
      max (v.speed - v.brake_rate * 1.5) (v.max_speed * 0.40)
    else
      max (v.speed - v.brake_rate * 1.0) (v.max_speed * 0.55)
  let v := { v with speed := new_speed }
  let new_x :=
    if safety_check.recommended_action.should_change_lane then
      match pyMinBy (fun (l : ℕ) => (((l : ℤ) - (current_lane : ℤ)).natAbs : ℚ))
          safety_check.safe_lanes with
      | none => v.x
      | some target_lane =>
        let target_x := lane_pos target_lane
        if |target_x - v.x| > 5 then
          let steering_speed : ℚ := 14
          if target_x < v.x then max (ROAD_X + 35) (v.x - steering_speed)
          else min (ROAD_X + ROAD_WIDTH - 35) (v.x + steering_speed)
        else v.x
    else v.x
  let v := { v with x := new_x }
  enforce_speed_limit v

/-- The smooth steering block of ai_decision_csp (mutating only the
lateral position), toward the chosen action's lane center. -/
def csp_steer (v : Vehicle) (target_x : ℚ) : Vehicle :=
  { v with x :=
    if |target_x - v.x| > 5 then
      let steering_speed : ℚ := if v.speed > 6 then 4 else 5
      if target_x < v.x then max (ROAD_X + 35) (v.x - steering_speed)
      else min (ROAD_X + ROAD_WIDTH - 35) (v.x + steering_speed)
    else v.x }

/-- Vehicle.ai_decision_csp: safety override on critical or high
urgency, otherwise the CSP decision executed with smooth steering and
the fixed speed deltas (this path does not re-apply the speed limit, as
in the source). -/
def ai_decision_csp (v : Vehicle) (traffic : List TrafficCar)
    (powerups : List PowerUp) (opponent : Option Vehicle)
    (ghost_mode : Bool) : Vehicle :=
  if v.crashed then v
  else
    let safety_check := predictive_safety_check v traffic
    if safety_check.recommended_action.urgency = "critical" ∨
        safety_check.recommended_action.urgency = "high" then
      emergency_tiered_override v safety_check
    else
      let decision := solve_lane_decision v traffic powerups opponent
        ghost_mode v.is_police
      let speed_action := decision.speed_action
      let v := csp_steer v decision.lane_x
      if ¬ v.crashed then
        if speed_action = "accelerate" then
          { v with speed := min (v.speed + 0.2) v.max_speed }
        else if speed_action = "maintain" then
          if v.speed < v.max_speed - 0.1 then
            { v with speed := min (v.speed + 0.08) v.max_speed }
          else v
        else if speed_action = "brake" then
          { v with speed := max (v.speed - 0.3) (v.max_speed * 0.5) }
        else v
      else v

/-- The speed execution of ai_decision_minimax outside the thief escape
modes (identical for the police branch and the thief far-from-police
branch of the source). -/
def minimax_speed_exec_normal (v : Vehicle) (best_action : MinimaxAction) :
    Vehicle :=
  let new_speed :=
    if best_action.speed_change = "accelerate" then
      let accel_mult : ℚ := 1.3
      min (v.speed + v.acceleration_rate * accel_mult) v.max_speed
    else if best_action.speed_change = "maintain" then
      if v.speed < v.max_speed - 0.1 then
        min (v.speed + v.acceleration_rate * 1.0) v.max_speed
      else v.speed
    else if best_action.speed_change = "brake" then
      max (v.speed - v.brake_rate) (v.max_speed * 0.5)
    else v.speed
  { v with speed := new_speed }

/-- The waypoint steering block of ai_decision_minimax (mutating only
the lateral position), on the target x of the chosen action's lane.  The
police and thief arms of the source pick the same steering speeds. -/
def minimax_steer (v : Vehicle) (traffic : List TrafficCar)
    (current_lane : ℕ) (target_x : ℚ) : Vehicle :=
  let distance_to_target := |target_x - v.x|
  { v with x :=
    if distance_to_target > 5 then
      let traffic_ahead_close := traffic.any (fun car =>
        get_lane_from_x car.x = current_lane ∧
        0 < car.distance - v.distance ∧ car.distance - v.distance < 200)
      let steering_speed : ℚ :=
        if ¬ v.is_police then
          if traffic_ahead_close then 10 else if v.speed > 6 then 8 else 7
        else
          if traffic_ahead_close then 10 else if v.speed > 6 then 8 else 7
      if target_x < v.x then max (ROAD_X + 35) (v.x - steering_speed)
      else min (ROAD_X + ROAD_WIDTH - 35) (v.x + steering_speed)
    else v.x }

/-- Vehicle.ai_decision_minimax.  The result none models the
AttributeError the source raises when opponent is None: after the
opponent_lane guard, GameState construction unconditionally reads
opponent.distance and opponent.speed in both the police and the thief
branch.  Everything mutated before that point is lost with the
exception, so none carries no state. -/
def ai_decision_minimax (timeUp : ℕ → Bool) (v : Vehicle)
    (traffic : List TrafficCar) (powerups : List PowerUp)
    (opponent : Option Vehicle) (ghost_mode : Bool) : Option Vehicle :=
  if v.crashed then some v
  else
    let safety_check := predictive_safety_check v traffic
    let current_lane := get_lane_from_x v.x
    if safety_check.recommended_action.urgency = "critical" then
      let v := { v with speed := max (v.speed - v.brake_rate * 2.0) (v.max_speed * 0.25) }
      let new_x :=
        if safety_check.recommended_action.should_change_lane then
          match pyMinBy (fun (l : ℕ) => (((l : ℤ) - (current_lane : ℤ)).natAbs : ℚ))
              safety_check.safe_lanes with
          | none => v.x
          | some target_lane =>
            let target_x := lane_pos target_lane
            if |target_x - v.x| > 5 then
              let steering_speed : ℚ := 14
              if target_x < v.x then max (ROAD_X + 35) (v.x - steering_speed)
              else min (ROAD_X + ROAD_WIDTH - 35) (v.x + steering_speed)
            else v.x
        else v.x
      let v := { v with x := new_x }
      some (enforce_speed_limit v)
    else
      let high_speed :=
        if safety_check.recommended_action.urgency = "high" then
          max (v.speed - v.brake_rate * 0.8) (v.max_speed * 0.50)
        else v.speed
      let v := { v with speed := high_speed }
      let opponent_lane := match opponent with
        | some o => get_lane_from_x o.x
        | none => 1
      let traffic_snapshot :=
        (traffic.filter (fun car => |car.distance - v.distance| < 1000)).map
          (fun car => (car.lane, car.distance))
      let powerup_snapshot :=
        (powerups.filter (fun p => ¬ p.collected ∧ |p.distance - v.distance| < 1000)).map
          (fun p => (p.lane, p.distance, p.power_type, p.for_police))
      match opponent with
      | none => none
      | some opp =>
        let game_state : GameState :=
          if v.is_police then
            { police_lane := current_lane, police_distance := v.distance,
              police_speed := v.speed, thief_lane := opponent_lane,
              thief_distance := opp.distance, thief_speed := opp.speed,
              traffic := traffic_snapshot, powerups := powerup_snapshot }
          else
            { police_lane := opponent_lane, police_distance := opp.distance,
              police_speed := opp.speed, thief_lane := current_lane,
              thief_distance := v.distance, thief_speed := v.speed,
              traffic := traffic_snapshot, powerups := powerup_snapshot }
        let best_action := get_best_move timeUp game_state v.is_police
        let v := minimax_steer v traffic current_lane (lane_pos best_action.lane)
        let v :=
          if ¬ v.crashed then
            if ¬ v.is_police then
              let distance_to_police := |opp.distance - v.distance|
              if distance_to_police < 200 then
                if best_action.speed_change ≠ "brake" then
                  { v with speed := min (v.speed + v.acceleration_rate * 1.5) v.max_speed }
                else
                  { v with speed := max (v.speed - v.brake_rate * 0.6) (v.max_speed * 0.70) }
              else if distance_to_police < 400 then
                if best_action.speed_change = "accelerate" then
                  { v with speed := min (v.speed + v.acceleration_rate * 1.4) v.max_speed }
                else if best_action.speed_change = "maintain" then
                  { v with speed := min (v.speed + v.acceleration_rate * 1.2) v.max_speed }
                else if best_action.speed_change = "brake" then
                  { v with speed := max (v.speed - v.brake_rate * 0.7) (v.max_speed * 0.65) }
                else v
              else
                minimax_speed_exec_normal v best_action
            else
              minimax_speed_exec_normal v best_action
          else v
        some (enforce_speed_limit v)

/-- The normal (non-escape) speed execution of ai_decision_fuzzy, shared
verbatim between the thief far-from-police case and the police / no
opponent case of the source. -/
def fuzzy_speed_exec_normal (v : Vehicle) (acceleration : ℚ)
    (nearest_obstacle_dist : ℚ) : Vehicle :=
  let new_speed :=
    if acceleration > 0.3 then min (v.speed + v.acceleration_rate * 1.4) v.max_speed
    else if acceleration > 0.05 then
      min (v.speed + v.acceleration_rate * 0.8) v.max_speed
    else if acceleration < -0.5 then
      max (v.speed - v.brake_rate * 1.5) (v.max_speed * 0.35)
    else if acceleration < -0.15 then
      max (v.speed - v.brake_rate * 0.8) (v.max_speed * 0.55)
    else
      let target_speed :=
        if nearest_obstacle_dist > 600 then v.max_speed
        else if nearest_obstacle_dist > 400 then v.max_speed * 0.95
        else if nearest_obstacle_dist > 250 then v.max_speed * 0.85
        else v.max_speed * 0.70
      if v.speed < target_speed - 0.3 then
        min (v.speed + v.acceleration_rate * 1.0) v.max_speed
      else if v.speed > target_speed + 0.3 then
        max (v.speed - v.brake_rate * 0.4) target_speed
      else v.speed
  { v with speed := new_speed }

/-- The per-lane safety record of ai_decision_fuzzy's lane analysis. -/
structure FuzzyLaneInfo where
  score : ℚ
  min_obstacle_dist : ℚ
  obstacles_count : ℕ
  immediate_danger : Bool
  side_collision_risk : Bool
deriving DecidableEq

/-- One lane of the intelligent lane safety analysis of
ai_decision_fuzzy: scoring starts at 1000, obstacles ahead within 1000
units are tiered, a side-by-side car forbids a lane change outright
(score set to -10000), then count/clear/stability/two-lane adjustments. -/
def fuzzy_lane_score (v : Vehicle) (traffic : List TrafficCar)
    (current_lane lane_idx : ℕ) : FuzzyLaneInfo :=
  let safety_margin := 250 + v.speed * 35
  let emergency_distance := 200 + v.speed * 25
  let scan := traffic.foldl (fun (acc : ℚ × ℚ × ℕ × Bool × Bool) car =>
    if car.lane = lane_idx then
      let dist := car.distance - v.distance
      let acc :=
        if 0 < dist ∧ dist < 1000 then
          let acc := (acc.1, min acc.2.1 dist, acc.2.2.1 + 1, acc.2.2.2)
          if dist < emergency_distance then
            (acc.1 - 500, acc.2.1, acc.2.2.1, true, acc.2.2.2.2)
          else if dist < safety_margin then
            (acc.1 - 300, acc.2.1, acc.2.2.1, acc.2.2.2.1, acc.2.2.2.2)
          else if dist < 500 then
            (acc.1 - 100, acc.2.1, acc.2.2.1, acc.2.2.2.1, acc.2.2.2.2)
          else if dist < 800 then
            (acc.1 - 30, acc.2.1, acc.2.2.1, acc.2.2.2.1, acc.2.2.2.2)
          else acc
        else acc
      if lane_idx ≠ current_lane ∧ -80 < dist ∧ dist < 80 then
        (-10000, acc.2.1, acc.2.2.1, acc.2.2.2.1, true)
      else acc
    else acc) (1000, 10000, 0, false, false)
  let lane_score := scan.1
  let min_obstacle_dist := scan.2.1
  let obstacles_count := scan.2.2.1
  let has_immediate_danger := scan.2.2.2.1
  let has_side_collision_risk := scan.2.2.2.2
  let lane_score := lane_score - (obstacles_count : ℚ) * 50
  let lane_score :=
    if obstacles_count = 0 then lane_score + 500
    else if obstacles_count = 1 ∧ min_obstacle_dist > 400 then lane_score + 200
    else lane_score
  let lane_score :=
    if lane_idx = current_lane ∧ ¬ has_immediate_danger then lane_score + 150
    else lane_score
  let lane_score :=
    if ((lane_idx : ℤ) - (current_lane : ℤ)).natAbs = 2 then lane_score - 100
    else lane_score
  { score := lane_score, min_obstacle_dist := min_obstacle_dist,
    obstacles_count := obstacles_count,
    immediate_danger := has_immediate_danger,
    side_collision_risk := has_side_collision_risk }

/-- The collection score ai_decision_fuzzy assigns to one power-up
candidate (priority, distance tier, lane difference with safety check,
traffic risk, high-value bonus, opponent-proximity strategy). -/
def fuzzy_collection_score (v : Vehicle) (traffic : List TrafficCar)
    (opponent : Option Vehicle) (current_lane : ℕ) (p : PowerUp) : ℚ :=
  let distance_to_powerup := p.distance - v.distance
  let lane_diff := (((p.lane : ℤ) - (current_lane : ℤ))).natAbs
  let scan := traffic.foldl (fun (acc : ℕ × ℚ × Bool) car =>
    if car.lane = p.lane then
      let car_dist := car.distance - v.distance
      if 0 < car_dist ∧ car_dist < 400 then
        let acc := (acc.1 + 1, min acc.2.1 car_dist, acc.2.2)
        if |car.distance - p.distance| < 80 then (acc.1, acc.2.1, true) else acc
      else acc
    else acc) (0, 10000, false)
  let traffic_in_powerup_lane := scan.1
  let min_traffic_dist := scan.2.1
  let immediate_danger := scan.2.2
  let collection_score : ℚ := 0
  let power_priority := p.get_priority_value
  let collection_score := collection_score + power_priority * 30
  let collection_score :=
    if distance_to_powerup < 150 then collection_score + 60
    else if distance_to_powerup < 300 then collection_score + 40
    else if distance_to_powerup < 450 then collection_score + 25
    else collection_score + 15
  let collection_score :=
    if lane_diff = 0 then collection_score + 70
    else if lane_diff = 1 then
      if is_lane_safe_for_powerup v p.lane traffic 250 then collection_score + 35
      else collection_score - 20
    else
      if is_lane_safe_for_powerup v p.lane traffic 250 then collection_score + 15
      else collection_score - 30
  let collection_score :=
    if immediate_danger then collection_score - 50
    else if traffic_in_powerup_lane = 0 then collection_score + 40
    else if traffic_in_powerup_lane = 1 ∧ min_traffic_dist > 150 then
      collection_score + 25
    else if traffic_in_powerup_lane ≤ 2 ∧ min_traffic_dist > 100 then
      collection_score + 10
    else collection_score - 10
  let collection_score :=
    if p.power_type = "ghost" ∨ p.power_type = "shield" ∨
        p.power_type = "emp" ∨ p.power_type = "magnet" then
      collection_score + 20
    else collection_score
  match opponent with
  | none => collection_score
  | some opp =>
    let opponent_dist := opp.distance - v.distance
    if ¬ v.is_police then
      if opponent_dist < 200 then
        if p.power_type = "freeze" ∨ p.power_type = "shield" ∨
            p.power_type = "ghost" then collection_score + 100
        else if p.power_type = "boost" then collection_score + 80
        else collection_score
      else if opponent_dist < 400 then
        if p.power_type = "freeze" ∨ p.power_type = "shield" ∨
            p.power_type = "ghost" then collection_score + 60
        else if p.power_type = "boost" ∨ p.power_type = "turbo" then
          collection_score + 50
        else collection_score
      else collection_score
    else
      if opponent_dist < 300 then
        if p.power_type = "emp" ∨ p.power_type = "spike" ∨
            p.power_type = "magnet" then collection_score + 70
        else collection_score
      else if opponent_dist < 500 then
        if p.power_type = "emp" ∨ p.power_type = "turbo" ∨
            p.power_type = "magnet" then collection_score + 45
        else if p.power_type = "roadblock" then collection_score + 40
        else collection_score
      else collection_score

/-- The comprehensive lane-change block of ai_decision_fuzzy (mutating
only the lateral position): score the three lanes, decide whether a
change is worthwhile, and steer toward the safest lane at a
danger-scaled speed. -/
def fuzzy_lane_change_steer (v : Vehicle) (traffic : List TrafficCar)
    (current_lane : ℕ) : Vehicle :=
  let lane0 := fuzzy_lane_score v traffic current_lane 0
  let lane1 := fuzzy_lane_score v traffic current_lane 1
  let lane2 := fuzzy_lane_score v traffic current_lane 2
  let laneInfo : ℕ → FuzzyLaneInfo := fun l =>
    if l = 0 then lane0 else if l = 1 then lane1 else lane2
  let safest_lane := pyMax1 (fun l => (laneInfo l).score) 0 [1, 2]
  let safest_lane_info := laneInfo safest_lane
  let current_lane_info := laneInfo current_lane
  let should_change_lane :=
    if current_lane_info.immediate_danger ∧
        ¬ safest_lane_info.side_collision_risk then
      safest_lane ≠ current_lane ∧ safest_lane_info.score > -1000
    else if safest_lane ≠ current_lane then
      safest_lane_info.score - current_lane_info.score > 200 ∧
        ¬ safest_lane_info.side_collision_risk
    else false
  { v with x :=
    if should_change_lane ∧ safest_lane ≠ current_lane then
      let target_x := lane_pos safest_lane
      if |target_x - v.x| > 5 then
        let steering_speed : ℚ :=
          if current_lane_info.immediate_danger then 14
          else if current_lane_info.min_obstacle_dist < 300 then 11
          else if safest_lane_info.score > current_lane_info.score + 400 then 9
          else 7
        if target_x < v.x then max (ROAD_X + 35) (v.x - steering_speed)
        else min (ROAD_X + ROAD_WIDTH - 35) (v.x + steering_speed)
      else v.x
    else v.x }

/-- The aggressive power-up collection steering block of
ai_decision_fuzzy (mutating only the lateral position): pick the best
scoring own-role power-up ahead within 600 units and steer toward its
lane when the score clears the opponent-distance-dependent threshold. -/
def fuzzy_powerup_steer (v : Vehicle) (traffic : List TrafficCar)
    (powerups : List PowerUp) (opponent : Option Vehicle)
    (current_lane : ℕ) : Vehicle :=
  { v with x :=
    if ¬ v.crashed then
      let best := powerups.foldl (fun (acc : Option (PowerUp × ℕ) × ℚ) p =>
        if p.collected then acc
        else if v.is_police ∧ ¬ p.for_police then acc
        else if ¬ v.is_police ∧ p.for_police then acc
        else
          let distance_to_powerup := p.distance - v.distance
          if 0 < distance_to_powerup ∧ distance_to_powerup < 600 then
            let collection_score :=
              fuzzy_collection_score v traffic opponent current_lane p
            if collection_score > acc.2 then
              (some (p, p.lane), collection_score)
            else acc
          else acc) (none, 0)
      let collection_threshold : ℚ :=
        match opponent with
        | some opp =>
          if ¬ v.is_police then
            let opponent_dist := opp.distance - v.distance
            if opponent_dist < 200 then 40
            else if opponent_dist < 400 then 50
            else 60
          else 60
        | none => 60
      match best.1 with
      | some bp =>
        if best.2 > collection_threshold then
          let powerup_lane := bp.2
          if powerup_lane ≠ current_lane then
            let target_x := lane_pos powerup_lane
            if |target_x - v.x| > 5 then
              let steering_speed : ℚ := 9
              if target_x < v.x then max (ROAD_X + 35) (v.x - steering_speed)
              else min (ROAD_X + ROAD_WIDTH - 35) (v.x + steering_speed)
            else v.x
          else v.x
        else v.x
      | none => v.x
    else v.x }

/-- Vehicle.ai_decision_fuzzy: safety override on critical or high
urgency; otherwise fuzzy speed control with smart adjustments, the
comprehensive lane safety analysis driving a possible lane change, the
aggressive power-up collection steering, and the speed limit. -/
def ai_decision_fuzzy (v : Vehicle) (traffic : List TrafficCar)
    (powerups : List PowerUp) (opponent : Option Vehicle)
    (ghost_mode : Bool) : Vehicle :=
  if v.crashed then v
  else
    let safety_check := predictive_safety_check v traffic
    let current_lane := get_lane_from_x v.x
    if safety_check.recommended_action.urgency = "critical" ∨
        safety_check.recommended_action.urgency = "high" then
      emergency_tiered_override v safety_check
    else
      let nearest_obstacle_dist := traffic.foldl (fun acc car =>
        if car.lane = current_lane ∧ 0 < car.distance - v.distance then
          min acc (car.distance - v.distance)
        else acc) 10000
      let can_safely_change_lane := (List.range 3).any (fun check_lane =>
        check_lane ≠ current_lane ∧
        (let lane_is_safe := ¬ traffic.any (fun car =>
            car.lane = check_lane ∧
            |car.distance - v.distance| < 220 + v.speed * 30)
         let min_clearance_in_lane := traffic.foldl (fun acc car =>
            if car.lane = check_lane then min acc |car.distance - v.distance|
            else acc) 10000
         lane_is_safe ∧ min_clearance_in_lane > nearest_obstacle_dist))
      let acceleration := get_fuzzy_speed_control v traffic opponent v.is_police
      let acceleration :=
        if 200 < nearest_obstacle_dist ∧ nearest_obstacle_dist < 400 ∧
            can_safely_change_lane then
          if acceleration < -0.5 then -0.3 else acceleration
        else if nearest_obstacle_dist < 180 ∧ ¬ can_safely_change_lane then
          min acceleration (-0.85)
        else if nearest_obstacle_dist > 600 then
          if acceleration > 0 then max acceleration 0.4 else acceleration
        else acceleration
      let v :=
        if ¬ v.crashed then
          match opponent with
          | some opp =>
            if ¬ v.is_police then
              let distance_to_police := |opp.distance - v.distance|
              if distance_to_police < 200 then
                if acceleration ≥ 0 then
                  { v with speed := min (v.speed + v.acceleration_rate * 1.8) v.max_speed }
                else
                  { v with speed := max (v.speed - v.brake_rate * 0.5) (v.max_speed * 0.75) }
              else if distance_to_police < 400 then
                if acceleration > 0.3 then
                  { v with speed := min (v.speed + v.acceleration_rate * 1.6) v.max_speed }
                else if acceleration > 0.05 then
                  { v with speed := min (v.speed + v.acceleration_rate * 1.2) v.max_speed }
                else if acceleration < -0.5 then
                  { v with speed := max (v.speed - v.brake_rate * 1.0) (v.max_speed * 0.50) }
                else if acceleration < -0.15 then
                  { v with speed := max (v.speed - v.brake_rate * 0.5) (v.max_speed * 0.65) }
                else
                  let target_speed := v.max_speed
                  if v.speed < target_speed - 0.1 then
                    { v with speed := min (v.speed + v.acceleration_rate * 1.3) v.max_speed }
                  else v
              else
                fuzzy_speed_exec_normal v acceleration nearest_obstacle_dist
            else
              fuzzy_speed_exec_normal v acceleration nearest_obstacle_dist
          | none =>
            fuzzy_speed_exec_normal v acceleration nearest_obstacle_dist
        else v
      let v := fuzzy_lane_change_steer v traffic current_lane
      let v := fuzzy_powerup_steer v traffic powerups opponent current_lane
      enforce_speed_limit v

/-- The police goal selection of ai_decision_astar, returning
(goal_lane, goal_distance).  Note: in the medium-distance branch the
source assigns the clearest-lane fallback under the danger check but
then unconditionally re-assigns the power-up's lane and distance, so
when a police power-up candidate exists it is always the goal. -/
def astar_police_goal (v : Vehicle) (traffic : List TrafficCar)
    (powerups : List PowerUp) (opponent : Option Vehicle) : ℕ × ℚ :=
  let current_distance := v.distance
  match opponent with
  | some opp =>
    let distance_to_thief := opp.distance - v.distance
    if distance_to_thief > 400 then
      let clearest_lane_info := find_clearest_lane current_distance traffic 800
      (clearest_lane_info.1, current_distance + 900)
    else if distance_to_thief > 200 then
      let best := powerups.foldl (fun (acc : Option PowerUp × ERat) p =>
        if ¬ p.collected ∧ p.for_police then
          let dist_to_powerup := p.distance - current_distance
          if 0 < dist_to_powerup ∧ dist_to_powerup < 900 then
            let power_priority := p.get_priority_value
            let priority_bonus := -(power_priority * 200)
            let effective_dist := dist_to_powerup + priority_bonus
            if ERat.blt (.fin effective_dist) acc.2 then
              (some p, .fin effective_dist)
            else acc
          else acc
        else acc) (none, .pinf)
      match best.1 with
      | some closest_police_powerup =>
        (closest_police_powerup.lane, closest_police_powerup.distance)
      | none =>
        let thief_lane := get_lane_from_x opp.x
        let lane_traffic_count := traffic.foldl (fun (acc : ℕ) car =>
          if car.lane = thief_lane ∧ 0 < car.distance - current_distance ∧
              car.distance - current_distance < 500 then acc + 1 else acc) 0
        let goal_lane :=
          if lane_traffic_count > 2 then
            (find_clearest_lane current_distance traffic 700).1
          else thief_lane
        (goal_lane, current_distance + 700)
    else if distance_to_thief > 50 then
      let goal_distance := opp.distance - 50
      let thief_lane := get_lane_from_x opp.x
      let check_lanes := [max 0 (thief_lane - 1), thief_lane, min 2 (thief_lane + 1)]
      let best := check_lanes.foldl (fun (acc : ℕ × ERat) check_lane =>
        let obstacle_count := traffic.foldl (fun c car =>
          if car.lane = check_lane ∧ |car.distance - goal_distance| < 300
          then c + 1 else c) 0
        if ERat.blt (.fin (obstacle_count : ℚ)) acc.2 then
          (check_lane, .fin (obstacle_count : ℚ))
        else acc) (thief_lane, .pinf)
      (best.1, goal_distance)
    else
      (get_lane_from_x opp.x, max (opp.distance - 20) current_distance)
  | none =>
    let clearest_lane_info := find_clearest_lane current_distance traffic 800
    (clearest_lane_info.1, current_distance + 800)

/-- The thief goal selection of ai_decision_astar, returning
(goal_lane, goal_distance): aggressive power-up targeting within 1500
units with type/priority bonuses (abandoned only for an obstacle right
at the power-up or more than five cars ahead in its lane), otherwise the
clearest lane with a police-proximity-dependent forward distance. -/
def astar_thief_goal (v : Vehicle) (traffic : List TrafficCar)
    (powerups : List PowerUp) (opponent : Option Vehicle) : ℕ × ℚ :=
  let current_distance := v.distance
  let best := powerups.foldl (fun (acc : Option PowerUp × ERat) p =>
    if ¬ p.collected ∧ ¬ p.for_police then
      let dist_to_powerup := p.distance - current_distance
      if 0 < dist_to_powerup ∧ dist_to_powerup < 1500 then
        let police_close :=
          match opponent with
          | some opp => opp.distance - current_distance > -400
          | none => false
        let priority_bonus : ℚ :=
          if p.power_type = "freeze" then -300
          else if p.power_type = "ghost" then -250
          else if p.power_type = "shield" then -250
          else if p.power_type = "turbo" ∨ p.power_type = "boost" then -200
          else -100
        let priority_bonus :=
          if police_close = true ∧ (p.power_type = "freeze" ∨
              p.power_type = "shield" ∨ p.power_type = "ghost") then
            priority_bonus - 150
          else priority_bonus
        let effective_distance := dist_to_powerup + priority_bonus
        if ERat.blt (.fin effective_distance) acc.2 then
          (some p, .fin effective_distance)
        else acc
      else acc
    else acc) (none, .pinf)
  match best.1 with
  | some closest_powerup =>
    let goal_lane := closest_powerup.lane
    let scan := traffic.foldl (fun (acc : ℕ × Bool) car =>
      if car.lane = goal_lane ∧ 0 < car.distance - current_distance ∧
          car.distance - current_distance < 500 then
        (acc.1 + 1, acc.2 ∨ |car.distance - closest_powerup.distance| < 80)
      else acc) (0, false)
    let traffic_in_lane := scan.1
    let immediate_danger := scan.2
    if immediate_danger ∨ traffic_in_lane > 5 then
      let clearest_lane_info := find_clearest_lane current_distance traffic 800
      (clearest_lane_info.1, current_distance + 800)
    else
      (goal_lane, closest_powerup.distance)
  | none =>
    let clearest_lane_info := find_clearest_lane current_distance traffic 1000
    let goal_distance :=
      match opponent with
      | some opp =>
        let distance_to_police := opp.distance - current_distance
        if distance_to_police > -100 then current_distance + 1000
        else if distance_to_police > -300 then current_distance + 850
        else current_distance + 700
      | none => current_distance + 750
    (clearest_lane_info.1, goal_distance)

/-- The waypoint steering block of ai_decision_astar (mutating only the
lateral position), on the target x of the next waypoint's lane. -/
def astar_steer (v : Vehicle) (traffic : List TrafficCar)
    (current_lane : ℕ) (target_x : ℚ) : Vehicle :=
  { v with x :=
    if |target_x - v.x| > 5 then
      let obstacle_very_close := traffic.any (fun car =>
        car.lane = current_lane ∧ 0 < car.distance - v.distance ∧
        car.distance - v.distance < 200)
      let steering_speed : ℚ :=
        if obstacle_very_close then 10
        else if v.speed > 6 then 8
        else 7
      if target_x < v.x then max (ROAD_X + 35) (v.x - steering_speed)
      else min (ROAD_X + ROAD_WIDTH - 35) (v.x + steering_speed)
    else v.x }

/-- Vehicle.ai_decision_astar: safety override on critical or high
urgency; otherwise goal selection (police pursuit zones or thief
power-up chase), A* pathfinding, waypoint steering and adaptive speed
control.  The police catch zones return without re-applying the speed
limit, exactly as the source's early returns skip the trailing
enforce_speed_limit call. -/
def ai_decision_astar (hfun : ℕ → ℚ → ℕ → ℚ → ℚ) (v : Vehicle)
    (traffic : List TrafficCar) (powerups : List PowerUp)
    (opponent : Option Vehicle) (ghost_mode : Bool) : Vehicle :=
  if v.crashed then v
  else
    let safety_check := predictive_safety_check v traffic
    let current_lane := get_lane_from_x v.x
    if safety_check.recommended_action.urgency = "critical" ∨
        safety_check.recommended_action.urgency = "high" then
      emergency_tiered_override v safety_check
    else
      let goal :=
        if v.is_police then astar_police_goal v traffic powerups opponent
        else astar_thief_goal v traffic powerups opponent
      let path := find_path hfun current_lane v.distance goal.1 goal.2 traffic
        opponent ghost_mode v.is_police v.speed
      match path with
      | _ :: next_waypoint :: _ =>
        let v := astar_steer v traffic current_lane (lane_pos next_waypoint.1)
        if ¬ v.crashed then
          let scan := traffic.foldl (fun (acc : Bool × ERat) car =>
            if car.lane = current_lane then
              let distance_to_car := car.distance - v.distance
              let look_ahead := 500 + v.speed * 60
              if 0 < distance_to_car ∧ distance_to_car < look_ahead ∧
                  ¬ ghost_mode then
                (true, eratMin acc.2 (.fin distance_to_car))
              else acc
            else acc) (false, .pinf)
          let obstacle_ahead := scan.1
          let closest_obstacle_distance := scan.2
          let zone_result : Option Vehicle :=
            match opponent with
            | some opp =>
              if v.is_police then
                let distance_to_thief := opp.distance - v.distance
                if distance_to_thief < 50 then
                  let target_speed := min (opp.speed * 0.7) (v.max_speed * 0.5)
                  some { v with speed := max (v.speed - v.brake_rate * 1.5) target_speed }
                else if distance_to_thief < 100 then
                  let target_speed := min opp.speed (v.max_speed * 0.85)
                  if v.speed > target_speed then
                    some { v with speed := max (v.speed - v.brake_rate) target_speed }
                  else
                    some { v with speed := min (v.speed + v.acceleration_rate * 0.5) target_speed }
                else if distance_to_thief < 150 then
                  let target_speed := min (opp.speed * 1.1) (v.max_speed * 0.9)
                  if v.speed > target_speed then
                    some { v with speed := max (v.speed - v.brake_rate * 0.7) target_speed }
                  else
                    some { v with speed := min (v.speed + v.acceleration_rate * 0.8) target_speed }
                else if distance_to_thief ≤ 0 then
                  some { v with speed := max (v.speed - v.brake_rate * 2) 2 }
                else none
              else none
            | none => none
          zone_result.getD (
            let new_speed :=
              if obstacle_ahead then
                if ERat.blt closest_obstacle_distance (.fin 120) then
                  max (v.speed - v.brake_rate * 2.5) (v.max_speed * 0.3)
                else if ERat.blt closest_obstacle_distance (.fin 200) then
                  max (v.speed - v.brake_rate * 1.8) (v.max_speed * 0.5)
                else if ERat.blt closest_obstacle_distance (.fin 300) then
                  max (v.speed - v.brake_rate * 1.2) (v.max_speed * 0.65)
                else if ERat.blt closest_obstacle_distance (.fin 450) then
                  max (v.speed - v.brake_rate * 0.7) (v.max_speed * 0.80)
                else
                  max (v.speed - v.brake_rate * 0.3) (v.max_speed * 0.90)
              else
                min (v.speed + v.acceleration_rate * 1.2) v.max_speed
            enforce_speed_limit { v with speed := new_speed })
        else enforce_speed_limit v
      | _ => enforce_speed_limit v

/-- The gentle power-up micro-steering bias of
priority_decision_hierarchy (mutating only the lateral position, then
clamping it to the road). -/
def powerup_bias_steer (v : Vehicle) (powerups : List PowerUp)
    (traffic : List TrafficCar) : Vehicle :=
  { v with x :=
    match choose_best_power v powerups traffic with
    | some target_power =>
      let target_x := lane_pos target_power.lane
      let steering_strength : ℚ := 0.07
      let steering_delta := (target_x - v.x) * steering_strength
      max (ROAD_X + 35) (min (ROAD_X + ROAD_WIDTH - 35) (v.x + steering_delta))
    | none => v.x }

/-- Vehicle.priority_decision_hierarchy: the per-tick arbiter.  Critical
urgency executes the hard safety override and returns; otherwise a safe
power-up may attract a gentle micro-steering bias, situational weights
over safety/fuzzy/minimax/astar are computed from urgency and opponent
distance, and the highest-weighted algorithm executes.  The result is
none exactly when the dispatched algorithm raises (ai_decision_minimax
with a missing opponent, which the weighting in fact never selects
since a missing opponent yields infinite distance and the astar
branch). -/
def priority_decision_hierarchy (timeUp : ℕ → Bool) (hfun : ℕ → ℚ → ℕ → ℚ → ℚ)
    (v : Vehicle) (traffic : List TrafficCar) (powerups : List PowerUp)
    (opponent : Option Vehicle) (ghost_mode : Bool) : Option Vehicle :=
  if v.crashed then some v
  else
    let safety_check := predictive_safety_check v traffic
    if safety_check.recommended_action.urgency = "critical" then
      some (execute_safety_override v safety_check)
    else
      let urgency := safety_check.recommended_action.urgency
      let v :=
        if urgency ≠ "high" ∧ urgency ≠ "critical" then
          powerup_bias_steer v powerups traffic
        else v
      let distance_to_opponent : ERat :=
        match opponent with
        | some opp => .fin |opp.distance - v.distance|
        | none => .pinf
      let weights : List (String × ℚ) :=
        if urgency = "high" ∨ urgency = "moderate" then
          [("safety", 0.60), ("fuzzy", 0.30), ("minimax", 0.05), ("astar", 0.05)]
        else if ERat.blt distance_to_opponent (.fin 300) then
          [("safety", 0.25), ("fuzzy", 0.45), ("minimax", 0.25), ("astar", 0.05)]
        else if ERat.blt distance_to_opponent (.fin 800) then
          [("safety", 0.15), ("fuzzy", 0.25), ("minimax", 0.45), ("astar", 0.15)]
        else
          [("safety", 0.10), ("fuzzy", 0.15), ("minimax", 0.20), ("astar", 0.55)]
      let primary_system :=
        (pyMax1 (fun w => w.2) (weights.headD ("safety", 0)) weights.tail).1
      let result : Option Vehicle :=
        if primary_system = "safety" then
          some (execute_safety_influenced_decision v safety_check)
        else if primary_system = "fuzzy" then
          some (ai_decision_fuzzy v traffic powerups opponent ghost_mode)
        else if primary_system = "minimax" then
          ai_decision_minimax timeUp v traffic powerups opponent ghost_mode
        else
          some (ai_decision_astar hfun v traffic powerups opponent ghost_mode)
      result.map (fun v =>
        if urgency = "critical" ∧
            safety_check.recommended_action.brake_intensity > 0.9 then
          if v.speed > v.max_speed * 0.70 then
            let brake_amount := safety_check.recommended_action.brake_intensity * 0.2
            let s := max (v.speed - v.brake_rate * brake_amount) (v.max_speed * 0.60)
            { v with speed := s }
          else v
        else v)

/-! ## Scenario constants and specification predicates -/

/-- The final waypoint of a path (the spec's notion used by the A*
validity property): last element of a waypoint list, none when empty. -/
def lastWaypoint : List (ℕ × ℚ) → Option (ℕ × ℚ)
  | [] => none
  | [a] => some a
  | _ :: b :: rest => lastWaypoint (b :: rest)

/-- The speed-bound invariant of the specification:
0 ≤ speed ≤ min(max_speed, ABSOLUTE_MAX_SPEED). -/
def SpeedInv (v : Vehicle) : Prop :=
  0 ≤ v.speed ∧ v.speed ≤ min v.max_speed ABSOLUTE_MAX_SPEED

/-- Well-formedness of a vehicle's tuning constants: nonnegative
acceleration and brake rates and a max speed between 2 and the absolute
cap (every vehicle the game builds satisfies this: rates are 0.20-0.35
and max_speed is 8 scaled by power-up factors 0.6-1.5 capped by the
claim's amended bound). -/
def WellTuned (v : Vehicle) : Prop :=
  0 ≤ v.acceleration_rate ∧ 0 ≤ v.brake_rate ∧
  2 ≤ v.max_speed ∧ v.max_speed ≤ ABSOLUTE_MAX_SPEED

/-- Nonnegative opponent speed (the part of the opponent's own speed
invariant the pursuit zones of ai_decision_astar rely on). -/
def OppSpeedOK : Option Vehicle → Prop
  | none => True
  | some o => 0 ≤ o.speed

/-- All membership degrees of an acceleration fuzzy output lie in [0, 1]. -/
def AccelFuzzy.InUnit (f : AccelFuzzy) : Prop :=
  0 ≤ f.strongBrake ∧ f.strongBrake ≤ 1 ∧ 0 ≤ f.lightBrake ∧ f.lightBrake ≤ 1 ∧
  0 ≤ f.maintain ∧ f.maintain ≤ 1 ∧ 0 ≤ f.lightAccelerate ∧ f.lightAccelerate ≤ 1 ∧
  0 ≤ f.strongAccelerate ∧ f.strongAccelerate ≤ 1

/-- All membership degrees of a lane-confidence fuzzy output lie in [0, 1]. -/
def LaneConfFuzzy.InUnit (f : LaneConfFuzzy) : Prop :=
  0 ≤ f.veryLow ∧ f.veryLow ≤ 1 ∧ 0 ≤ f.low ∧ f.low ≤ 1 ∧
  0 ≤ f.medium ∧ f.medium ≤ 1 ∧ 0 ≤ f.high ∧ f.high ≤ 1 ∧
  0 ≤ f.veryHigh ∧ f.veryHigh ≤ 1

/-- The C1 scenario vehicle: thief tuning, at the lane-1 center,
travelling at its max speed 8. -/
def c1_vehicle : Vehicle :=
  { x := 499, distance := 0, speed := 8, max_speed := 8,
    acceleration_rate := 0.2, brake_rate := 0.32, is_police := false,
    crashed := false }

/-- The C1 scenario traffic: one car in the vehicle's current lane at
relative distance 50 with speed 0. -/
def c1_traffic : List TrafficCar :=
  [{ lane := 1, x := 499, distance := 50, speed := 0 }]

/-- The C2 counterexample vehicle: a reachable boost state with
max_speed = base 8 × 1.5 = 12 while travelling at the absolute cap 8. -/
def c2_vehicle : Vehicle :=
  { x := 499, distance := 0, speed := 8, max_speed := 12,
    acceleration_rate := 0.2, brake_rate := 0.32, is_police := false,
    crashed := false }

/-- The C3 counterexample state: police 20 units behind the thief, so
police_distance ≥ thief_distance - 30 holds with a positive gap. -/
def c3_state : GameState :=
  { police_lane := 0, police_distance := 0, thief_lane := 0,
    thief_distance := 20, police_speed := 0, thief_speed := 0,
    traffic := [], powerups := [] }

/-- Traffic that blocks every lane right ahead of the C5 start position
(each car is well inside the speed-0 safety envelope of 280 in its own
lane and the 80-unit side envelope of the adjacent lanes). -/
def c5_blocked_traffic : List TrafficCar :=
  [{ lane := 0, x := 333, distance := 60, speed := 2 },
   { lane := 1, x := 499, distance := 60, speed := 2 },
   { lane := 2, x := 665, distance := 60, speed := 2 }]

/-- The C4 all-blocked witness vehicle: a thief at the lane-1 center. -/
def c4_blocked_vehicle : Vehicle :=
  { x := 499, distance := 0, speed := 7, max_speed := 8,
    acceleration_rate := 0.2, brake_rate := 0.32, is_police := false,
    crashed := false }

/-- Traffic occupying every lane 50 units ahead, so each of the nine CSP
actions violates the occupancy hard constraint. -/
def c4_blocked_traffic : List TrafficCar :=
  [{ lane := 0, x := 333, distance := 50, speed := 2 },
   { lane := 1, x := 499, distance := 50, speed := 2 },
   { lane := 2, x := 665, distance := 50, speed := 2 }]

/-- The C6 failing input vehicle: an ordinary thief mid-drive. -/
def c6_vehicle : Vehicle :=
  { x := 499, distance := 0, speed := 4, max_speed := 8,
    acceleration_rate := 0.2, brake_rate := 0.32, is_police := false,
    crashed := false }

/-- One decision tick of the C8 scenario: a run of the full decision
pipeline (priority_decision_hierarchy) with no traffic, no power-ups and
no opponent, for the thief (Manhattan pathfinder per the spec's
assignment); the time budget never expires on this opponent-free path.
The pipeline's outbound effect is the mutated x and speed; the
longitudinal integration lives in the game loop outside the decision
engine and does not feed back into this traffic-free scenario. -/
def decision_tick (v : Vehicle) : Option Vehicle :=
  priority_decision_hierarchy (fun _ => false) manhattan_distance v [] [] none false

/-- The C8 clear-road run: iterate the decision tick from the given
start, keeping the previous state if a tick ever returned none. -/
def clear_road_trace (start : Vehicle) : ℕ → Vehicle
  | 0 => start
  | k + 1 =>
    (decision_tick (clear_road_trace start k)).getD (clear_road_trace start k)

/-- The C8 clear-road trace, in closed form: the vehicle starts at the
lane-0 center with speed 0 and gains acceleration_rate 0.2 × 1.2 = 0.24
per tick up to max_speed 8. -/
def clear_road_state (k : ℕ) : Vehicle :=
  { x := 333, distance := 0, speed := min (6 * k / 25 : ℚ) 8, max_speed := 8,
    acceleration_rate := 0.2, brake_rate := 0.32, is_police := false,
    crashed := false }

/-- The steady state the C8 trace reaches: lane-0 center at max speed. -/
def clear_road_steady : Vehicle :=
  { x := 333, distance := 0, speed := 8, max_speed := 8,
    acceleration_rate := 0.2, brake_rate := 0.32, is_police := false,
    crashed := false }

/-- The C8 counterexample vehicle: speed 0 and max_speed 8 as the
scenario demands, placed at x = 420 — still within lane 1's band. -/
def c8_cex_vehicle : Vehicle :=
  { x := 420, distance := 0, speed := 0, max_speed := 8,
    acceleration_rate := 0.2, brake_rate := 0.32, is_police := false,
    crashed := false }

/-! ## Shared helper lemmas -/

set_option maxRecDepth 1000000

/-- The three lane center positions evaluate to 333, 499 and 665. -/
theorem lane_pos_vals : lane_pos 0 = 333 ∧ lane_pos 1 = 499 ∧ lane_pos 2 = 665 := by
  refine ⟨?_, ?_, ?_⟩ <;> norm_num [lane_pos, ROAD_X, LANE_WIDTH, HALF_LANE]

/-- A distance of at least 83 on either side bounds the absolute value. -/
theorem le_abs_of_side (x c : ℚ) (h : 83 ≤ x - c ∨ 83 ≤ c - x) :
    (83 : ℚ) ≤ |x - c| := by
  rw [le_abs, neg_sub]
  exact h

/-! ## C9: lane classification -/

/-- C9 counterexample: at x = 200 lane 0's center (333) is strictly the
nearest center, yet get_lane_from_x returns the center lane 1, so the
function is not nearest-center classification outside the lane bands. -/
theorem C9_counterexample :
    get_lane_from_x 200 = 1 ∧
    |(200 : ℚ) - lane_pos 0| < |(200 : ℚ) - lane_pos 1| ∧
    |(200 : ℚ) - lane_pos 0| < |(200 : ℚ) - lane_pos 2| := by
  refine ⟨by decide, ?_, ?_⟩ <;> decide

/-- C9 (amended): get_lane_from_x is nearest-center classification only
within the lanes' bands: when x lies strictly within LANE_WIDTH // 2 =
83 of some lane center, that lane is returned and its center is nearest;
when x is at least 83 from every center the function returns the center
lane 1 regardless of which center is nearest. -/
theorem C9_lane_from_x_nearest_amended (x : ℚ) :
    (∀ i, i < 3 → |x - lane_pos i| < HALF_LANE →
      get_lane_from_x x = i ∧ ∀ j, j < 3 → |x - lane_pos i| ≤ |x - lane_pos j|) ∧
    ((∀ i, i < 3 → HALF_LANE ≤ |x - lane_pos i|) → get_lane_from_x x = 1) := by
  obtain ⟨h0, h1, h2⟩ := lane_pos_vals
  have hH : HALF_LANE = 83 := rfl
  constructor
  · intro i hi hband
    interval_cases i
    · have hb : |x - 333| < 83 := by rw [h0, hH] at hband; exact hband
      obtain ⟨hu, hl⟩ := abs_sub_lt_iff.mp hb
      refine ⟨?_, fun j hj => ?_⟩
      · unfold get_lane_from_x
        rw [if_pos hband]
      · interval_cases j
        · exact le_refl _
        · rw [h0, h1]
          exact le_trans (le_of_lt hb) (le_abs_of_side x 499 (Or.inr (by linarith)))
        · rw [h0, h2]
          exact le_trans (le_of_lt hb) (le_abs_of_side x 665 (Or.inr (by linarith)))
    · have hb : |x - 499| < 83 := by rw [h1, hH] at hband; exact hband
      obtain ⟨hu, hl⟩ := abs_sub_lt_iff.mp hb
      have hn0 : ¬ |x - lane_pos 0| < HALF_LANE := by
        rw [h0, hH]
        push_neg
        exact le_abs_of_side x 333 (Or.inl (by linarith))
      refine ⟨?_, fun j hj => ?_⟩
      · unfold get_lane_from_x
        rw [if_neg hn0, if_pos hband]
      · interval_cases j
        · rw [h1, h0]
          exact le_trans (le_of_lt hb) (le_abs_of_side x 333 (Or.inl (by linarith)))
        · exact le_refl _
        · rw [h1, h2]
          exact le_trans (le_of_lt hb) (le_abs_of_side x 665 (Or.inr (by linarith)))
    · have hb : |x - 665| < 83 := by rw [h2, hH] at hband; exact hband
      obtain ⟨hu, hl⟩ := abs_sub_lt_iff.mp hb
      have hn0 : ¬ |x - lane_pos 0| < HALF_LANE := by
        rw [h0, hH]
        push_neg
        exact le_abs_of_side x 333 (Or.inl (by linarith))
      have hn1 : ¬ |x - lane_pos 1| < HALF_LANE := by
        rw [h1, hH]
        push_neg
        exact le_abs_of_side x 499 (Or.inl (by linarith))
      refine ⟨?_, fun j hj => ?_⟩
      · unfold get_lane_from_x
        rw [if_neg hn0, if_neg hn1, if_pos hband]
      · interval_cases j
        · rw [h2, h0]
          exact le_trans (le_of_lt hb) (le_abs_of_side x 333 (Or.inl (by linarith)))
        · rw [h2, h1]
          exact le_trans (le_of_lt hb) (le_abs_of_side x 499 (Or.inl (by linarith)))
        · exact le_refl _
  · intro hall
    unfold get_lane_from_x
    rw [if_neg (not_lt.mpr (hall 0 (by norm_num))),
        if_neg (not_lt.mpr (hall 1 (by norm_num))),
        if_neg (not_lt.mpr (hall 2 (by norm_num)))]

/-- Witness for C9 at x = 350 inside lane 0's band. -/
theorem C9_lane_from_x_nearest_amended_witness :
    (get_lane_from_x 350 = 0 ∧
      ∀ j, j < 3 → |(350 : ℚ) - lane_pos 0| ≤ |(350 : ℚ) - lane_pos j|) ∧
    get_lane_from_x 200 = 1 :=
  ⟨(C9_lane_from_x_nearest_amended 350).1 0 (by norm_num) (by decide),
   (C9_lane_from_x_nearest_amended 200).2 (by decide)⟩

/-! ## C3: minimax terminal detection -/

/-- C3 counterexample: the state with the police 20 units behind the
thief is terminal (20 - 30 ≤ 0 ≤ distance bound), but _evaluate_state
returns the ordinary tiered score 3550, not the maximal 10000 catch
score. -/
theorem C3_counterexample :
    is_terminal c3_state = true ∧ evaluate_state c3_state = 3550 ∧
    evaluate_state c3_state ≠ 10000 := by
  refine ⟨by decide, by decide, by decide⟩

/-- C3 (amended): every GameState with police_distance ≥ thief_distance
- 30 is classified terminal by _is_terminal, and _evaluate_state returns
the maximal 10000 catch score exactly when the police has fully closed
the gap (police_distance ≥ thief_distance); in the remaining 30-unit
band of terminal states the evaluation is the ordinary tiered score. -/
theorem C3_terminal_amended (s : GameState) :
    (s.police_distance ≥ s.thief_distance - 30 → is_terminal s = true) ∧
    (s.police_distance ≥ s.thief_distance → evaluate_state s = 10000) := by
  constructor
  · intro h
    unfold is_terminal
    rw [if_pos h]
  · intro h
    simp only [evaluate_state]
    rw [if_pos (by linarith : s.thief_distance - s.police_distance ≤ 0)]

/-- Witness for C3 on the counterexample state and a fully-caught state. -/
theorem C3_terminal_amended_witness :
    is_terminal c3_state = true ∧
    evaluate_state { c3_state with police_distance := 25 } = 10000 :=
  ⟨(C3_terminal_amended c3_state).1 (by norm_num [c3_state]),
   (C3_terminal_amended { c3_state with police_distance := 25 }).2
     (by norm_num [c3_state])⟩

/-! ## C10: minimax planning-speed clamp -/

/-- _simulate_action with is_police = true, written as one record. -/
theorem simulate_action_police (s : GameState) (a : MinimaxAction) :
    simulate_action s a true =
      { s with police_lane := a.lane,
               police_speed :=
                 (if a.speed_change = "accelerate" then min (s.police_speed + 0.4) 8
                  else if a.speed_change = "brake" then max (s.police_speed - 0.6) 3
                  else s.police_speed),
               police_distance := s.police_distance +
                 (if a.speed_change = "accelerate" then min (s.police_speed + 0.4) 8
                  else if a.speed_change = "brake" then max (s.police_speed - 0.6) 3
                  else s.police_speed) * 20 } := rfl

/-- _simulate_action with is_police = false, written as one record. -/
theorem simulate_action_thief (s : GameState) (a : MinimaxAction) :
    simulate_action s a false =
      { s with thief_lane := a.lane,
               thief_speed :=
                 (if a.speed_change = "accelerate" then min (s.thief_speed + 0.4) 8
                  else if a.speed_change = "brake" then max (s.thief_speed - 0.6) 3
                  else s.thief_speed),
               thief_distance := s.thief_distance +
                 (if a.speed_change = "accelerate" then min (s.thief_speed + 0.4) 8
                  else if a.speed_change = "brake" then max (s.thief_speed - 0.6) 3
                  else s.thief_speed) * 20 } := rfl

/-- C10: _simulate_action gives the acting vehicle min(old + 0.4, 8) on
accelerate, max(old - 0.6, 3) on brake (never below 3, and raised to
exactly 3 from any lower speed) and the old speed on anything else,
while the non-acting vehicle's lane, distance and speed are unchanged. -/
theorem C10_simulate_action_clamp (s : GameState) (a : MinimaxAction) :
    ((simulate_action s a true).police_speed =
        (if a.speed_change = "accelerate" then min (s.police_speed + 0.4) 8
         else if a.speed_change = "brake" then max (s.police_speed - 0.6) 3
         else s.police_speed) ∧
      (a.speed_change = "brake" →
        3 ≤ (simulate_action s a true).police_speed ∧
        (s.police_speed < 3 → (simulate_action s a true).police_speed = 3)) ∧
      (simulate_action s a true).thief_lane = s.thief_lane ∧
      (simulate_action s a true).thief_distance = s.thief_distance ∧
      (simulate_action s a true).thief_speed = s.thief_speed) ∧
    ((simulate_action s a false).thief_speed =
        (if a.speed_change = "accelerate" then min (s.thief_speed + 0.4) 8
         else if a.speed_change = "brake" then max (s.thief_speed - 0.6) 3
         else s.thief_speed) ∧
      (a.speed_change = "brake" →
        3 ≤ (simulate_action s a false).thief_speed ∧
        (s.thief_speed < 3 → (simulate_action s a false).thief_speed = 3)) ∧
      (simulate_action s a false).police_lane = s.police_lane ∧
      (simulate_action s a false).police_distance = s.police_distance ∧
      (simulate_action s a false).police_speed = s.police_speed) := by
  rw [simulate_action_police s a, simulate_action_thief s a]
  refine ⟨⟨rfl, ?_, rfl, rfl, rfl⟩, rfl, ?_, rfl, rfl, rfl⟩
  · intro h
    show 3 ≤ (if a.speed_change = "accelerate" then min (s.police_speed + 0.4) 8
        else if a.speed_change = "brake" then max (s.police_speed - 0.6) 3
        else s.police_speed) ∧ _
    rw [h, if_neg (by decide : ¬ ("brake" : String) = "accelerate"),
        if_pos (rfl : ("brake" : String) = "brake")]
    exact ⟨le_max_right _ _, fun hlt => max_eq_right (by linarith)⟩
  · intro h
    show 3 ≤ (if a.speed_change = "accelerate" then min (s.thief_speed + 0.4) 8
        else if a.speed_change = "brake" then max (s.thief_speed - 0.6) 3
        else s.thief_speed) ∧ _
    rw [h, if_neg (by decide : ¬ ("brake" : String) = "accelerate"),
        if_pos (rfl : ("brake" : String) = "brake")]
    exact ⟨le_max_right _ _, fun hlt => max_eq_right (by linarith)⟩

/-- Witness for C10: braking from planning speed 0 yields exactly 3. -/
theorem C10_simulate_action_clamp_witness :
    3 ≤ (simulate_action c3_state ⟨0, "brake", false⟩ true).police_speed ∧
    (simulate_action c3_state ⟨0, "brake", false⟩ true).police_speed = 3 :=
  ⟨((C10_simulate_action_clamp c3_state ⟨0, "brake", false⟩).1.2.1 rfl).1,
   ((C10_simulate_action_clamp c3_state ⟨0, "brake", false⟩).1.2.1 rfl).2
     (by norm_num [c3_state])⟩

/-! ## C7: defuzzification bounds -/

/-- C7: for membership degrees in [0, 1], defuzzify_acceleration lies in
[-1, 1] and defuzzify_lane_confidence lies in [0, 100]; when the total
membership is zero each returns its neutral default (0) instead of
dividing by zero. -/
theorem C7_defuzzify_bounds (fa : AccelFuzzy) (fl : LaneConfFuzzy)
    (ha : fa.InUnit) (hl : fl.InUnit) :
    -1 ≤ defuzzify_acceleration fa ∧ defuzzify_acceleration fa ≤ 1 ∧
    0 ≤ defuzzify_lane_confidence fl ∧ defuzzify_lane_confidence fl ≤ 100 ∧
    (fa.strongBrake + fa.lightBrake + fa.maintain + fa.lightAccelerate +
        fa.strongAccelerate = 0 → defuzzify_acceleration fa = 0) ∧
    (fl.veryLow + fl.low + fl.medium + fl.high + fl.veryHigh = 0 →
        defuzzify_lane_confidence fl = 0) := by
  obtain ⟨a0, a1, b0, b1, c0, c1, d0, d1, e0, e1⟩ := ha
  obtain ⟨p0, p1, q0, q1, r0, r1, s0, s1, t0, t1⟩ := hl
  have hA : -1 ≤ defuzzify_acceleration fa ∧ defuzzify_acceleration fa ≤ 1 := by
    simp only [defuzzify_acceleration]
    by_cases hden : fa.strongBrake + fa.lightBrake + fa.maintain +
        fa.lightAccelerate + fa.strongAccelerate = 0
    · rw [if_pos hden]
      norm_num
    · rw [if_neg hden]
      have hpos : 0 < fa.strongBrake + fa.lightBrake + fa.maintain +
          fa.lightAccelerate + fa.strongAccelerate :=
        lt_of_le_of_ne (by linarith) (Ne.symm hden)
      constructor
      · rw [le_div_iff₀ hpos]
        linarith
      · rw [div_le_one hpos]
        linarith
  have hL : 0 ≤ defuzzify_lane_confidence fl ∧ defuzzify_lane_confidence fl ≤ 100 := by
    simp only [defuzzify_lane_confidence]
    by_cases hden : fl.veryLow + fl.low + fl.medium + fl.high + fl.veryHigh = 0
    · rw [if_pos hden]
      norm_num
    · rw [if_neg hden]
      have hpos : 0 < fl.veryLow + fl.low + fl.medium + fl.high + fl.veryHigh :=
        lt_of_le_of_ne (by linarith) (Ne.symm hden)
      constructor
      · positivity
      · rw [div_le_iff₀ hpos]
        linarith
  refine ⟨hA.1, hA.2, hL.1, hL.2, ?_, ?_⟩
  · intro h
    simp only [defuzzify_acceleration]
    rw [if_pos h]
  · intro h
    simp only [defuzzify_lane_confidence]
    rw [if_pos h]

/-- Witness for C7 on a concrete fired output and the all-zero output. -/
theorem C7_defuzzify_bounds_witness :
    -1 ≤ defuzzify_acceleration ⟨1, 0, 0, 0, 1⟩ ∧
    defuzzify_acceleration ⟨1, 0, 0, 0, 1⟩ ≤ 1 ∧
    0 ≤ defuzzify_lane_confidence ⟨0, 0, 0, 0, 0⟩ ∧
    defuzzify_lane_confidence ⟨0, 0, 0, 0, 0⟩ ≤ 100 ∧
    ((1 : ℚ) + 0 + 0 + 0 + 1 = 0 → defuzzify_acceleration ⟨1, 0, 0, 0, 1⟩ = 0) ∧
    ((0 : ℚ) + 0 + 0 + 0 + 0 = 0 → defuzzify_lane_confidence ⟨0, 0, 0, 0, 0⟩ = 0) :=
  C7_defuzzify_bounds ⟨1, 0, 0, 0, 1⟩ ⟨0, 0, 0, 0, 0⟩
    (by refine ⟨?_, ?_, ?_, ?_, ?_, ?_, ?_, ?_, ?_, ?_⟩ <;> norm_num)
    (by refine ⟨?_, ?_, ?_, ?_, ?_, ?_, ?_, ?_, ?_, ?_⟩ <;> norm_num)

/-! ## C6: missing opponent -/

/-- C6 (code bug): ai_decision_minimax with opponent = None reaches the
GameState construction, which reads opponent.distance and raises an
AttributeError (the none result), instead of degrading to role-default
behavior; by contrast the CSP opponent-relative scoring really does
contribute zero without an opponent, as the claim describes. -/
theorem C6_minimax_none_opponent_raises :
    ai_decision_minimax (fun _ => false) c6_vehicle [] [] none false = none ∧
    score_police_pursuit ⟨1, lane_pos 1, "maintain"⟩ c6_vehicle none = 0 ∧
    score_thief_escape ⟨1, lane_pos 1, "maintain"⟩ c6_vehicle none = 0 :=
  ⟨rfl, rfl, rfl⟩

/-! ## C1: safety override precedence -/

/-- C1: in the synthetic scenario (traffic car 50 units ahead in the
current lane at speed 0, vehicle at max speed), predictive_safety_check
recommends urgency critical with brake intensity 1.0, the arbiter
executes exactly the hard safety override whatever the other inputs are,
and the resulting next-tick speed is strictly reduced. -/
theorem C1_safety_override_precedence :
    (predictive_safety_check c1_vehicle c1_traffic).recommended_action.urgency =
      "critical" ∧
    (predictive_safety_check c1_vehicle c1_traffic).recommended_action.brake_intensity
      = 1 ∧
    (∀ (timeUp : ℕ → Bool) (hfun : ℕ → ℚ → ℕ → ℚ → ℚ)
        (powerups : List PowerUp) (opponent : Option Vehicle) (ghost_mode : Bool),
      priority_decision_hierarchy timeUp hfun c1_vehicle c1_traffic powerups
          opponent ghost_mode =
        some (execute_safety_override c1_vehicle
          (predictive_safety_check c1_vehicle c1_traffic))) ∧
    (execute_safety_override c1_vehicle
        (predictive_safety_check c1_vehicle c1_traffic)).speed < c1_vehicle.speed := by
  refine ⟨by decide, by decide, ?_, by decide⟩
  intro timeUp hfun powerups opponent ghost_mode
  rfl

/-! ## C5: A* path validity and fallback -/

/-- The last waypoint of a list ending in a singleton append. -/
theorem lastWaypoint_append_single (xs : List (ℕ × ℚ)) (a : ℕ × ℚ) :
    lastWaypoint (xs ++ [a]) = some a := by
  induction xs with
  | nil => rfl
  | cons b bs ih =>
    cases bs with
    | nil => rfl
    | cons c cs => exact ih

/-- reconstruct always ends at the node it is called on. -/
theorem reconstruct_lastWaypoint (n : AStarNode) :
    lastWaypoint (reconstruct n) = some (n.lane, n.distance) := by
  cases n with
  | mk l d g h f p =>
    rw [reconstruct.eq_def, AStarNode.lane, AStarNode.distance]
    exact lastWaypoint_append_single _ _

/-- Every outcome of the search loop ends either at the exact goal (the
fallback and fuel-exhaustion paths) or at a node in the goal lane within
100 units of the goal distance (the success path). -/
theorem find_path_loop_last (hfun : ℕ → ℚ → ℕ → ℚ → ℚ) (goal_lane : ℕ)
    (goal_distance : ℚ) (traffic : List TrafficCar) (opponent : Option Vehicle)
    (ghost_mode is_police : Bool) (vehicle_speed : ℚ) (start_lane : ℕ)
    (start_distance : ℚ) :
    ∀ (fuel : ℕ) (open_set : Array AStarNode) (closed_set : List (ℕ × ℤ))
      (best_g : List ((ℕ × ℚ) × ℚ)),
      ∃ p, lastWaypoint (find_path_loop hfun goal_lane goal_distance traffic
            opponent ghost_mode is_police vehicle_speed start_lane
            start_distance fuel open_set closed_set best_g) = some p ∧
        (p = (goal_lane, goal_distance) ∨
          (p.1 = goal_lane ∧ |p.2 - goal_distance| < 100)) := by
  intro fuel
  induction fuel with
  | zero =>
    intro os cs bg
    exact ⟨(goal_lane, goal_distance), rfl, Or.inl rfl⟩
  | succ n ih =>
    intro os cs bg
    rw [find_path_loop]
    split
    · exact ⟨(goal_lane, goal_distance), rfl, Or.inl rfl⟩
    · split
      · dsimp only
        split
        · rename_i clane cdist cg ch cf cparent hpop hgoal
          exact ⟨(clane, cdist),
            reconstruct_lastWaypoint (AStarNode.mk clane cdist cg ch cf cparent),
            Or.inr ⟨hgoal.2, hgoal.1⟩⟩
        · split
          · exact ih _ _ _
          · exact ih _ _ _

/-- C5: find_path always returns a non-empty path whose last waypoint is
in the goal lane within the 100-unit goal tolerance (or is the exact
goal point of the two-point fallback), for every input — in particular
with no traffic and no opponent; and on the concrete input whose three
lanes are all blocked right ahead, the search exhausts and returns
exactly the two-point fallback path. -/
theorem C5_astar_path_validity :
    (∀ (hfun : ℕ → ℚ → ℕ → ℚ → ℚ) (start_lane : ℕ) (start_distance : ℚ)
        (goal_lane : ℕ) (goal_distance : ℚ) (traffic : List TrafficCar)
        (opponent : Option Vehicle) (ghost_mode is_police : Bool)
        (vehicle_speed : ℚ),
      find_path hfun start_lane start_distance goal_lane goal_distance traffic
          opponent ghost_mode is_police vehicle_speed ≠ [] ∧
      ∃ p, lastWaypoint (find_path hfun start_lane start_distance goal_lane
            goal_distance traffic opponent ghost_mode is_police vehicle_speed) =
          some p ∧
        (p = (goal_lane, goal_distance) ∨
          (p.1 = goal_lane ∧ |p.2 - goal_distance| < 100))) ∧
    find_path manhattan_distance 1 0 1 400 c5_blocked_traffic none false false 0 =
      [(1, 0), (1, 400)] := by
  constructor
  · intro hfun sl sd gl gd tr opp gm ip vs
    have hfp : find_path hfun sl sd gl gd tr opp gm ip vs =
        find_path_loop hfun gl gd tr opp gm ip vs sl sd 200
          (heappush #[] (AStarNode.make sl sd 0 (hfun sl sd gl gd) none)) []
          [((sl, sd), 0)] := rfl
    obtain ⟨p, hp, hgoal⟩ := find_path_loop_last hfun gl gd tr opp gm ip vs sl sd
      200 (heappush #[] (AStarNode.make sl sd 0 (hfun sl sd gl gd) none)) []
      [((sl, sd), 0)]
    rw [hfp]
    refine ⟨?_, p, hp, hgoal⟩
    intro hnil
    rw [hnil] at hp
    simp [lastWaypoint] at hp
  · decide

/-! ## C4: CSP solver totality -/

/-- Python max returns the head or a member of the tail. -/
theorem pyMax1_mem {α : Type} (key : α → ℚ) :
    ∀ (xs : List α) (x : α), pyMax1 key x xs = x ∨ pyMax1 key x xs ∈ xs := by
  intro xs
  induction xs with
  | nil => intro x; exact Or.inl rfl
  | cons b bs ih =>
    intro x
    have hstep : pyMax1 key x (b :: bs) =
        pyMax1 key (if key x < key b then b else x) bs := by
      unfold pyMax1
      rw [List.foldl_cons]
    rw [hstep]
    by_cases hk : key x < key b
    · rw [if_pos hk]
      rcases ih b with h | h
      · exact Or.inr (by rw [h]; exact List.mem_cons_self b bs)
      · exact Or.inr (List.mem_cons_of_mem b h)
    · rw [if_neg hk]
      rcases ih x with h | h
      · exact Or.inl h
      · exact Or.inr (List.mem_cons_of_mem b h)

/-- Python max dominates the head and every member of the tail. -/
theorem pyMax1_le {α : Type} (key : α → ℚ) :
    ∀ (xs : List α) (x b : α), (b = x ∨ b ∈ xs) →
      key b ≤ key (pyMax1 key x xs) := by
  intro xs
  induction xs with
  | nil =>
    intro x b hb
    rcases hb with h | h
    · rw [h]
      exact le_of_eq rfl
    · exact absurd h (List.not_mem_nil b)
  | cons c cs ih =>
    intro x b hb
    have hstep : pyMax1 key x (c :: cs) =
        pyMax1 key (if key x < key c then c else x) cs := by
      unfold pyMax1
      rw [List.foldl_cons]
    rw [hstep]
    have hx : key x ≤ key (if key x < key c then c else x) := by
      by_cases hk : key x < key c
      · rw [if_pos hk]
        exact le_of_lt hk
      · rw [if_neg hk]
    have hc : key c ≤ key (if key x < key c then c else x) := by
      by_cases hk : key x < key c
      · rw [if_pos hk]
      · rw [if_neg hk]
        exact le_of_not_lt hk
    have hhead := ih (if key x < key c then c else x) _ (Or.inl rfl)
    rcases hb with h | h
    · rw [h]
      exact le_trans hx hhead
    · rcases List.mem_cons.mp h with h | h
      · rw [h]
        exact le_trans hc hhead
      · exact ih _ _ (Or.inr h)

/-- get_lane_from_x only produces lanes 0, 1 and 2. -/
theorem get_lane_from_x_lt3 (x : ℚ) : get_lane_from_x x < 3 := by
  unfold get_lane_from_x
  split
  · norm_num
  · split
    · norm_num
    · split <;> norm_num

/-- Every candidate CSP action has an in-bounds lane and the matching
lane center. -/
theorem csp_actions_shape :
    ∀ a ∈ csp_actions, a.lane < 3 ∧ a.lane_x = lane_pos a.lane := by decide

/-- The hard constraints never read the speed action. -/
theorem satisfies_hard_constraints_sa (l : ℕ) (px : ℚ) (sa sa' : String)
    (v : Vehicle) (traffic : List TrafficCar) (gm : Bool) :
    satisfies_hard_constraints ⟨l, px, sa⟩ v traffic gm =
      satisfies_hard_constraints ⟨l, px, sa'⟩ v traffic gm := rfl

/-- With no traffic, the clearance score is the free-road 30. -/
theorem score_traffic_clearance_empty (a : CSPAction) (v : Vehicle) :
    score_traffic_clearance a v [] = 30 := by
  simp only [score_traffic_clearance, List.foldl_nil]
  norm_num

/-- The police pursuit score never prefers braking to maintaining. -/
theorem score_police_pursuit_maintain_ge_brake (l : ℕ) (px : ℚ) (v : Vehicle)
    (opp : Option Vehicle) :
    score_police_pursuit ⟨l, px, "brake"⟩ v opp ≤
      score_police_pursuit ⟨l, px, "maintain"⟩ v opp := by
  cases opp with
  | none => exact le_refl 0
  | some o =>
    have hba := eq_false (by decide : ¬ ("brake" : String) = "accelerate")
    have hbm := eq_false (by decide : ¬ ("brake" : String) = "maintain")
    have hma := eq_false (by decide : ¬ ("maintain" : String) = "accelerate")
    have hmm := eq_true (rfl : ("maintain" : String) = "maintain")
    simp only [score_police_pursuit, hba, hbm, hma, hmm, false_and, true_and,
      if_false]
    split_ifs <;> linarith

/-- The thief escape score does not distinguish braking from
maintaining. -/
theorem score_thief_escape_brake_eq_maintain (l : ℕ) (px : ℚ) (v : Vehicle)
    (opp : Option Vehicle) :
    score_thief_escape ⟨l, px, "brake"⟩ v opp =
      score_thief_escape ⟨l, px, "maintain"⟩ v opp := by
  cases opp with
  | none => rfl
  | some o =>
    have hba := eq_false (by decide : ¬ ("brake" : String) = "accelerate")
    have hma := eq_false (by decide : ¬ ("maintain" : String) = "accelerate")
    simp only [score_thief_escape, hba, hma, and_false, if_false]

/-- Braking scores -5 on speed optimization. -/
theorem score_speed_optimization_brake (l : ℕ) (px : ℚ) (v : Vehicle) :
    score_speed_optimization ⟨l, px, "brake"⟩ v = -5 := by
  have hba := eq_false (by decide : ¬ ("brake" : String) = "accelerate")
  have hbm := eq_false (by decide : ¬ ("brake" : String) = "maintain")
  have hbb := eq_true (rfl : ("brake" : String) = "brake")
  simp only [score_speed_optimization, hba, hbm, hbb, false_and, if_false,
    if_true]

/-- Maintaining scores at least 0 on speed optimization. -/
theorem score_speed_optimization_maintain_nonneg (l : ℕ) (px : ℚ) (v : Vehicle) :
    0 ≤ score_speed_optimization ⟨l, px, "maintain"⟩ v := by
  have hma := eq_false (by decide : ¬ ("maintain" : String) = "accelerate")
  have hmb := eq_false (by decide : ¬ ("maintain" : String) = "brake")
  have hmm := eq_true (rfl : ("maintain" : String) = "maintain")
  simp only [score_speed_optimization, hma, hmb, hmm, false_and, true_and,
    if_false]
  split_ifs <;> norm_num

/-- With no traffic, braking always scores strictly below maintaining in
the same target lane, whatever the role, power-ups and opponent. -/
theorem csp_brake_lt_maintain (l : ℕ) (px : ℚ) (v : Vehicle)
    (powerups : List PowerUp) (opponent : Option Vehicle) (is_police : Bool) :
    calculate_utility_score ⟨l, px, "brake"⟩ v [] powerups opponent is_police <
      calculate_utility_score ⟨l, px, "maintain"⟩ v [] powerups opponent is_police := by
  have h1 := score_police_pursuit_maintain_ge_brake l px v opponent
  have h2 := score_thief_escape_brake_eq_maintain l px v opponent
  have h3 : score_powerup_collection ⟨l, px, "brake"⟩ v powerups =
      score_powerup_collection ⟨l, px, "maintain"⟩ v powerups := rfl
  have h4 := score_traffic_clearance_empty ⟨l, px, "brake"⟩ v
  have h5 := score_traffic_clearance_empty ⟨l, px, "maintain"⟩ v
  have h6 := score_speed_optimization_brake l px v
  have h7 := score_speed_optimization_maintain_nonneg l px v
  have h8 : score_lane_preference ⟨l, px, "brake"⟩ v =
      score_lane_preference ⟨l, px, "maintain"⟩ v := rfl
  cases is_police with
  | false =>
    have e1 : calculate_utility_score ⟨l, px, "brake"⟩ v [] powerups opponent false =
        score_thief_escape ⟨l, px, "brake"⟩ v opponent
          + score_powerup_collection ⟨l, px, "brake"⟩ v powerups
          + score_traffic_clearance ⟨l, px, "brake"⟩ v []
          + score_speed_optimization ⟨l, px, "brake"⟩ v
          + score_lane_preference ⟨l, px, "brake"⟩ v := rfl
    have e2 : calculate_utility_score ⟨l, px, "maintain"⟩ v [] powerups opponent false =
        score_thief_escape ⟨l, px, "maintain"⟩ v opponent
          + score_powerup_collection ⟨l, px, "maintain"⟩ v powerups
          + score_traffic_clearance ⟨l, px, "maintain"⟩ v []
          + score_speed_optimization ⟨l, px, "maintain"⟩ v
          + score_lane_preference ⟨l, px, "maintain"⟩ v := rfl
    rw [e1, e2, h2, h3, h4, h5, h6, h8]
    linarith
  | true =>
    have e1 : calculate_utility_score ⟨l, px, "brake"⟩ v [] powerups opponent true =
        score_police_pursuit ⟨l, px, "brake"⟩ v opponent
          + score_traffic_clearance ⟨l, px, "brake"⟩ v []
          + score_speed_optimization ⟨l, px, "brake"⟩ v
          + score_lane_preference ⟨l, px, "brake"⟩ v := rfl
    have e2 : calculate_utility_score ⟨l, px, "maintain"⟩ v [] powerups opponent true =
        score_police_pursuit ⟨l, px, "maintain"⟩ v opponent
          + score_traffic_clearance ⟨l, px, "maintain"⟩ v []
          + score_speed_optimization ⟨l, px, "maintain"⟩ v
          + score_lane_preference ⟨l, px, "maintain"⟩ v := rfl
    rw [e1, e2, h4, h5, h6, h8]
    linarith

/-- C4: solve_lane_decision always returns an action with lane in
{0,1,2}; when all nine candidates violate the hard constraints it
returns the current lane with speed_action brake; and with no traffic
and a lane-centered vehicle the returned action is an in-bounds lane
with a non-brake speed action. -/
theorem C4_solve_lane_decision_totality :
    (∀ (v : Vehicle) (traffic : List TrafficCar) (powerups : List PowerUp)
        (opponent : Option Vehicle) (ghost_mode is_police : Bool),
      (solve_lane_decision v traffic powerups opponent ghost_mode is_police).lane
        < 3) ∧
    (∀ (v : Vehicle) (traffic : List TrafficCar) (powerups : List PowerUp)
        (opponent : Option Vehicle) (ghost_mode is_police : Bool),
      csp_actions.filter (fun a => satisfies_hard_constraints a v traffic ghost_mode)
          = [] →
      solve_lane_decision v traffic powerups opponent ghost_mode is_police =
        ⟨get_lane_from_x v.x, lane_pos (get_lane_from_x v.x), "brake"⟩) ∧
    (∀ (v : Vehicle) (powerups : List PowerUp) (opponent : Option Vehicle)
        (ghost_mode is_police : Bool),
      (∃ l, l < 3 ∧ v.x = lane_pos l) →
      (solve_lane_decision v [] powerups opponent ghost_mode is_police).lane < 3 ∧
      (solve_lane_decision v [] powerups opponent ghost_mode is_police).speed_action
        ≠ "brake") := by
  have key_mem : ∀ (v : Vehicle) (traffic : List TrafficCar)
      (powerups : List PowerUp) (opponent : Option Vehicle)
      (ghost_mode is_police : Bool) (a : CSPAction) (rest : List CSPAction),
      csp_actions.filter (fun b => satisfies_hard_constraints b v traffic ghost_mode)
          = a :: rest →
      solve_lane_decision v traffic powerups opponent ghost_mode is_police ∈
        csp_actions ∧
      solve_lane_decision v traffic powerups opponent ghost_mode is_police ∈
        a :: rest := by
    intro v traffic powerups opponent ghost_mode is_police a rest hva
    have hsolve : solve_lane_decision v traffic powerups opponent ghost_mode
        is_police = pyMax1
          (fun b => calculate_utility_score b v traffic powerups opponent is_police)
          a rest := by
      simp only [solve_lane_decision]
      rw [hva]
    have hmem := pyMax1_mem
      (fun b => calculate_utility_score b v traffic powerups opponent is_police)
      rest a
    rw [← hsolve] at hmem
    have hmem2 : solve_lane_decision v traffic powerups opponent ghost_mode
        is_police ∈ a :: rest := by
      rcases hmem with h | h
      · rw [h]
        exact List.mem_cons_self a rest
      · exact List.mem_cons_of_mem a h
    refine ⟨?_, hmem2⟩
    have := hmem2
    rw [← hva] at this
    exact List.mem_of_mem_filter this
  refine ⟨?_, ?_, ?_⟩
  · intro v traffic powerups opponent ghost_mode is_police
    cases hva : csp_actions.filter
        (fun a => satisfies_hard_constraints a v traffic ghost_mode) with
    | nil =>
      have : solve_lane_decision v traffic powerups opponent ghost_mode is_police =
          ⟨get_lane_from_x v.x, lane_pos (get_lane_from_x v.x), "brake"⟩ := by
        simp only [solve_lane_decision]
        rw [hva]
      rw [this]
      exact get_lane_from_x_lt3 v.x
    | cons a rest =>
      exact (csp_actions_shape _
        (key_mem v traffic powerups opponent ghost_mode is_police a rest hva).1).1
  · intro v traffic powerups opponent ghost_mode is_police hva
    simp only [solve_lane_decision]
    rw [hva]
  · intro v powerups opponent ghost_mode is_police hcent
    obtain ⟨l, hl3, hx⟩ := hcent
    have hcl : get_lane_from_x v.x = l := by
      rw [hx]
      interval_cases l <;> decide
    have hsat : satisfies_hard_constraints ⟨l, lane_pos l, "maintain"⟩ v []
        ghost_mode = true := by
      simp only [satisfies_hard_constraints, decide_eq_true_eq]
      refine ⟨Or.inr (by simp), ?_, ?_⟩
      · interval_cases l <;>
          norm_num [lane_pos, ROAD_X, ROAD_WIDTH, LANE_WIDTH, HALF_LANE]
      · rw [hcl]
        simp
    have hmem : (⟨l, lane_pos l, "maintain"⟩ : CSPAction) ∈ csp_actions := by
      interval_cases l <;> decide
    have hfil : (⟨l, lane_pos l, "maintain"⟩ : CSPAction) ∈ csp_actions.filter
        (fun a => satisfies_hard_constraints a v [] ghost_mode) :=
      List.mem_filter.mpr ⟨hmem, hsat⟩
    cases hva : csp_actions.filter
        (fun a => satisfies_hard_constraints a v [] ghost_mode) with
    | nil =>
      rw [hva] at hfil
      exact absurd hfil (List.not_mem_nil _)
    | cons a rest =>
      obtain ⟨hmemall, hmemfil⟩ :=
        key_mem v [] powerups opponent ghost_mode is_police a rest hva
      refine ⟨(csp_actions_shape _ hmemall).1, ?_⟩
      intro hbrake
      set chosen := solve_lane_decision v [] powerups opponent ghost_mode is_police
        with hch
      have hshape := csp_actions_shape chosen hmemall
      have hchosen_eq : chosen = ⟨chosen.lane, chosen.lane_x, chosen.speed_action⟩ :=
        rfl
      have hsatc : satisfies_hard_constraints chosen v [] ghost_mode = true := by
        have := hmemfil
        rw [← hva] at this
        exact (List.mem_filter.mp this).2
      have hsatm : satisfies_hard_constraints
          ⟨chosen.lane, chosen.lane_x, "maintain"⟩ v [] ghost_mode = true := by
        rw [satisfies_hard_constraints_sa chosen.lane chosen.lane_x "maintain"
          chosen.speed_action v [] ghost_mode, ← hchosen_eq]
        exact hsatc
      have hmemm : (⟨chosen.lane, chosen.lane_x, "maintain"⟩ : CSPAction) ∈
          csp_actions := by
        rw [hshape.2]
        have h3l := hshape.1
        have h3 : chosen.lane = 0 ∨ chosen.lane = 1 ∨ chosen.lane = 2 := by omega
        rcases h3 with h | h | h <;> rw [h] <;> decide
      have hfilm : (⟨chosen.lane, chosen.lane_x, "maintain"⟩ : CSPAction) ∈
          csp_actions.filter (fun a => satisfies_hard_constraints a v [] ghost_mode) :=
        List.mem_filter.mpr ⟨hmemm, hsatm⟩
      have hle : calculate_utility_score ⟨chosen.lane, chosen.lane_x, "maintain"⟩
            v [] powerups opponent is_police ≤
          calculate_utility_score chosen v [] powerups opponent is_police := by
        have hsolve : chosen = pyMax1
            (fun b => calculate_utility_score b v [] powerups opponent is_police)
            a rest := by
          rw [hch]
          simp only [solve_lane_decision]
          rw [hva]
        rw [hva] at hfilm
        conv_rhs => rw [hsolve]
        refine pyMax1_le
          (fun b => calculate_utility_score b v [] powerups opponent is_police)
          rest a _ ?_
        rcases List.mem_cons.mp hfilm with h | h
        · exact Or.inl h
        · exact Or.inr h
      have hlt := csp_brake_lt_maintain chosen.lane chosen.lane_x v powerups
        opponent is_police
      rw [← hbrake, ← hchosen_eq] at hlt
      exact absurd hle (not_le.mpr hlt)

/-- Witness for C4 on the all-blocked input and a centered clear-road
input. -/
theorem C4_solve_lane_decision_totality_witness :
    solve_lane_decision c4_blocked_vehicle c4_blocked_traffic [] none false false =
      ⟨get_lane_from_x c4_blocked_vehicle.x,
        lane_pos (get_lane_from_x c4_blocked_vehicle.x), "brake"⟩ ∧
    (solve_lane_decision c1_vehicle [] [] none false false).lane < 3 ∧
    (solve_lane_decision c1_vehicle [] [] none false false).speed_action ≠ "brake" :=
  ⟨C4_solve_lane_decision_totality.2.1 c4_blocked_vehicle c4_blocked_traffic []
      none false false (by decide),
   (C4_solve_lane_decision_totality.2.2 c1_vehicle [] none false false
      ⟨1, by norm_num, by decide⟩).1,
   (C4_solve_lane_decision_totality.2.2 c1_vehicle [] none false false
      ⟨1, by norm_num, by decide⟩).2⟩

/-! ## C2: speed bound invariant -/

/-- Nonnegativity passes through a rational if, whatever the branch
condition. -/
theorem rite_nonneg {c : Prop} [inst : Decidable c] {a b : ℚ} (ha : 0 ≤ a)
    (hb : 0 ≤ b) : 0 ≤ if c then a else b := by
  split_ifs <;> assumption

/-- An upper bound passes through a rational if, whatever the branch
condition. -/
theorem rite_le {c : Prop} [inst : Decidable c] {a b B : ℚ} (ha : a ≤ B)
    (hb : b ≤ B) : (if c then a else b) ≤ B := by
  split_ifs <;> assumption

/-- Speed nonnegativity passes through a vehicle-valued if. -/
theorem vite_speed_nonneg {c : Prop} [inst : Decidable c] {a b : Vehicle}
    (ha : 0 ≤ a.speed) (hb : 0 ≤ b.speed) : 0 ≤ (if c then a else b).speed := by
  split_ifs <;> assumption

/-- Max-speed nonnegativity passes through a vehicle-valued if. -/
theorem vite_max_nonneg {c : Prop} [inst : Decidable c] {a b : Vehicle}
    (ha : 0 ≤ a.max_speed) (hb : 0 ≤ b.max_speed) :
    0 ≤ (if c then a else b).max_speed := by
  split_ifs <;> assumption

/-- The speed invariant passes through a vehicle-valued if. -/
theorem vite_inv {c : Prop} [inst : Decidable c] {a b : Vehicle}
    (ha : SpeedInv a) (hb : SpeedInv b) : SpeedInv (if c then a else b) := by
  split_ifs <;> assumption

/-- The speed invariant for every some-result of an optional if. -/
theorem oite_inv {c : Prop} [inst : Decidable c] {a b : Option Vehicle}
    (ha : ∀ w, a = some w → SpeedInv w) (hb : ∀ w, b = some w → SpeedInv w) :
    ∀ w, (if c then a else b) = some w → SpeedInv w := by
  split_ifs <;> assumption

/-- The speed invariant for the some-results of a some. -/
theorem osome_inv {u : Vehicle} (h : SpeedInv u) :
    ∀ w, some u = some w → SpeedInv w := by
  intro w hw
  injection hw with h2
  rw [← h2]
  exact h

/-- none has no some-results. -/
theorem onone_inv : ∀ w, (none : Option Vehicle) = some w → SpeedInv w := by
  intro w hw
  exact absurd hw (by simp)

/-- The speed invariant passes through Option.getD. -/
theorem ogetD_inv {z : Option Vehicle} {d : Vehicle}
    (hz : ∀ w, z = some w → SpeedInv w) (hd : SpeedInv d) :
    SpeedInv (z.getD d) := by
  cases z with
  | none => exact hd
  | some u => exact hz u rfl

/-- The speed invariant for the some-results of an Option.map. -/
theorem omap_inv {f : Vehicle → Vehicle} {R : Option Vehicle}
    (hR : ∀ u, R = some u → SpeedInv u) (hf : ∀ u, SpeedInv u → SpeedInv (f u)) :
    ∀ w, R.map f = some w → SpeedInv w := by
  intro w hw
  cases R with
  | none => exact absurd hw (by simp)
  | some u =>
    rw [Option.map_some'] at hw
    injection hw with h2
    rw [← h2]
    exact hf u (hR u rfl)

/-- enforce_speed_limit establishes the speed invariant from mere
nonnegativity of the incoming speed and max speed. -/
theorem enforce_speed_limit_inv (v : Vehicle) (h0 : 0 ≤ v.speed)
    (hm : 0 ≤ v.max_speed) : SpeedInv (enforce_speed_limit v) := by
  unfold SpeedInv enforce_speed_limit
  dsimp only
  simp only [ABSOLUTE_MAX_SPEED]
  split_ifs <;> constructor <;>
    first
      | linarith
      | exact le_min (by linarith) (by linarith)

/-- The minimax waypoint steering only changes the lateral position. -/
theorem minimax_steer_fields (v : Vehicle) (traffic : List TrafficCar)
    (cl : ℕ) (tx : ℚ) :
    (minimax_steer v traffic cl tx).speed = v.speed ∧
    (minimax_steer v traffic cl tx).max_speed = v.max_speed ∧
    (minimax_steer v traffic cl tx).acceleration_rate = v.acceleration_rate ∧
    (minimax_steer v traffic cl tx).brake_rate = v.brake_rate ∧
    (minimax_steer v traffic cl tx).crashed = v.crashed ∧
    (minimax_steer v traffic cl tx).distance = v.distance ∧
    (minimax_steer v traffic cl tx).is_police = v.is_police :=
  ⟨rfl, rfl, rfl, rfl, rfl, rfl, rfl⟩

/-- The A* waypoint steering only changes the lateral position. -/
theorem astar_steer_fields (v : Vehicle) (traffic : List TrafficCar)
    (cl : ℕ) (tx : ℚ) :
    (astar_steer v traffic cl tx).speed = v.speed ∧
    (astar_steer v traffic cl tx).max_speed = v.max_speed ∧
    (astar_steer v traffic cl tx).acceleration_rate = v.acceleration_rate ∧
    (astar_steer v traffic cl tx).brake_rate = v.brake_rate ∧
    (astar_steer v traffic cl tx).crashed = v.crashed ∧
    (astar_steer v traffic cl tx).distance = v.distance ∧
    (astar_steer v traffic cl tx).is_police = v.is_police :=
  ⟨rfl, rfl, rfl, rfl, rfl, rfl, rfl⟩

/-- The fuzzy lane-change steering only changes the lateral position. -/
theorem fuzzy_lane_change_steer_fields (v : Vehicle) (traffic : List TrafficCar)
    (cl : ℕ) :
    (fuzzy_lane_change_steer v traffic cl).speed = v.speed ∧
    (fuzzy_lane_change_steer v traffic cl).max_speed = v.max_speed ∧
    (fuzzy_lane_change_steer v traffic cl).acceleration_rate =
      v.acceleration_rate ∧
    (fuzzy_lane_change_steer v traffic cl).brake_rate = v.brake_rate ∧
    (fuzzy_lane_change_steer v traffic cl).crashed = v.crashed ∧
    (fuzzy_lane_change_steer v traffic cl).distance = v.distance ∧
    (fuzzy_lane_change_steer v traffic cl).is_police = v.is_police :=
  ⟨rfl, rfl, rfl, rfl, rfl, rfl, rfl⟩

/-- The fuzzy power-up steering only changes the lateral position. -/
theorem fuzzy_powerup_steer_fields (v : Vehicle) (traffic : List TrafficCar)
    (powerups : List PowerUp) (opponent : Option Vehicle) (cl : ℕ) :
    (fuzzy_powerup_steer v traffic powerups opponent cl).speed = v.speed ∧
    (fuzzy_powerup_steer v traffic powerups opponent cl).max_speed = v.max_speed ∧
    (fuzzy_powerup_steer v traffic powerups opponent cl).acceleration_rate =
      v.acceleration_rate ∧
    (fuzzy_powerup_steer v traffic powerups opponent cl).brake_rate =
      v.brake_rate ∧
    (fuzzy_powerup_steer v traffic powerups opponent cl).crashed = v.crashed ∧
    (fuzzy_powerup_steer v traffic powerups opponent cl).distance = v.distance ∧
    (fuzzy_powerup_steer v traffic powerups opponent cl).is_police =
      v.is_police :=
  ⟨rfl, rfl, rfl, rfl, rfl, rfl, rfl⟩

/-- The arbiter's power-up micro-steering only changes the lateral
position. -/
theorem powerup_bias_steer_fields (v : Vehicle) (powerups : List PowerUp)
    (traffic : List TrafficCar) :
    (powerup_bias_steer v powerups traffic).speed = v.speed ∧
    (powerup_bias_steer v powerups traffic).max_speed = v.max_speed ∧
    (powerup_bias_steer v powerups traffic).acceleration_rate =
      v.acceleration_rate ∧
    (powerup_bias_steer v powerups traffic).brake_rate = v.brake_rate ∧
    (powerup_bias_steer v powerups traffic).crashed = v.crashed ∧
    (powerup_bias_steer v powerups traffic).distance = v.distance ∧
    (powerup_bias_steer v powerups traffic).is_police = v.is_police :=
  ⟨rfl, rfl, rfl, rfl, rfl, rfl, rfl⟩

/-- The hard safety override keeps the speed invariant. -/
theorem execute_safety_override_inv (v : Vehicle) (sc : SafetyAnalysis)
    (h0 : 0 ≤ v.speed) (hb : 0 ≤ v.brake_rate) (hm : 0 ≤ v.max_speed) :
    SpeedInv (execute_safety_override v sc) := by
  unfold execute_safety_override
  dsimp only
  refine enforce_speed_limit_inv _ ?_ (by dsimp only; linarith)
  dsimp only
  exact le_max_of_le_right (by linarith)

/-- The tiered emergency override keeps the speed invariant. -/
theorem emergency_tiered_override_inv (v : Vehicle) (sc : SafetyAnalysis)
    (h0 : 0 ≤ v.speed) (hb : 0 ≤ v.brake_rate) (hm : 0 ≤ v.max_speed) :
    SpeedInv (emergency_tiered_override v sc) := by
  unfold emergency_tiered_override
  dsimp only
  refine enforce_speed_limit_inv _ ?_ (by dsimp only; linarith)
  dsimp only
  split_ifs <;> exact le_max_of_le_right (by linarith)

/-- The safety-influenced decision keeps the speed invariant. -/
theorem execute_safety_influenced_decision_inv (v : Vehicle)
    (sc : SafetyAnalysis) (h0 : 0 ≤ v.speed) (hb : 0 ≤ v.brake_rate)
    (hm : 0 ≤ v.max_speed) :
    SpeedInv (execute_safety_influenced_decision v sc) := by
  unfold execute_safety_influenced_decision
  dsimp only
  refine enforce_speed_limit_inv _ ?_ (by dsimp only; linarith)
  dsimp only
  split_ifs <;> first
    | linarith
    | exact le_max_of_le_right (by linarith)

/-- The minimax normal speed execution keeps the speed nonnegative and
the max speed unchanged. -/
theorem minimax_speed_exec_normal_nonneg (v : Vehicle) (a : MinimaxAction)
    (h0 : 0 ≤ v.speed) (ha : 0 ≤ v.acceleration_rate) (hm : 0 ≤ v.max_speed) :
    0 ≤ (minimax_speed_exec_normal v a).speed ∧
    (minimax_speed_exec_normal v a).max_speed = v.max_speed := by
  refine ⟨?_, rfl⟩
  unfold minimax_speed_exec_normal
  dsimp only
  exact rite_nonneg (le_min (by linarith) hm)
    (rite_nonneg (rite_nonneg (le_min (by linarith) hm) h0)
      (rite_nonneg (le_max_of_le_right (by linarith)) h0))

/-- Speed-only corollary of the previous lemma, stated without a
conjunction so that it unifies directly against a goal. -/
theorem minimax_speed_exec_speed_nonneg (v : Vehicle) (a : MinimaxAction)
    (h0 : 0 ≤ v.speed) (ha : 0 ≤ v.acceleration_rate) (hm : 0 ≤ v.max_speed) :
    0 ≤ (minimax_speed_exec_normal v a).speed :=
  (minimax_speed_exec_normal_nonneg v a h0 ha hm).1

/-- The fuzzy normal speed execution keeps the speed nonnegative and the
max speed unchanged. -/
theorem fuzzy_speed_exec_normal_nonneg (v : Vehicle) (acc nod : ℚ)
    (h0 : 0 ≤ v.speed) (ha : 0 ≤ v.acceleration_rate) (hm : 0 ≤ v.max_speed) :
    0 ≤ (fuzzy_speed_exec_normal v acc nod).speed ∧
    (fuzzy_speed_exec_normal v acc nod).max_speed = v.max_speed := by
  refine ⟨?_, rfl⟩
  unfold fuzzy_speed_exec_normal
  dsimp only
  have hT : 0 ≤ (if nod > 600 then v.max_speed
      else if nod > 400 then v.max_speed * 0.95
      else if nod > 250 then v.max_speed * 0.85 else v.max_speed * 0.70) :=
    rite_nonneg hm (rite_nonneg (by linarith) (rite_nonneg (by linarith) (by linarith)))
  exact rite_nonneg (le_min (by linarith) hm)
    (rite_nonneg (le_min (by linarith) hm)
      (rite_nonneg (le_max_of_le_right (by linarith))
        (rite_nonneg (le_max_of_le_right (by linarith))
          (rite_nonneg (le_min (by linarith) hm)
            (rite_nonneg (le_max_of_le_right hT) h0)))))

/-- ai_decision_csp preserves the speed invariant for well-tuned
vehicles. -/
theorem ai_decision_csp_inv (v : Vehicle) (traffic : List TrafficCar)
    (powerups : List PowerUp) (opponent : Option Vehicle) (ghost_mode : Bool)
    (hv : SpeedInv v) (ht : WellTuned v) :
    SpeedInv (ai_decision_csp v traffic powerups opponent ghost_mode) := by
  obtain ⟨hs0, hs1⟩ := hv
  obtain ⟨ha, hb, hm2, hm8⟩ := ht
  have hs1a : v.speed ≤ v.max_speed := le_trans hs1 (min_le_left _ _)
  have hs1b : v.speed ≤ 8 := le_trans hs1 (min_le_right _ _)
  have hm8' : v.max_speed ≤ 8 := hm8
  have hm0 : (0 : ℚ) ≤ v.max_speed := by linarith
  unfold ai_decision_csp
  dsimp only [csp_steer]
  refine vite_inv ⟨hs0, hs1⟩
    (vite_inv (emergency_tiered_override_inv _ _ hs0 hb hm0)
      (vite_inv ?_ ⟨hs0, hs1⟩))
  refine vite_inv
    ⟨le_min (by linarith) hm0,
     le_min (min_le_right _ _) (le_trans (min_le_right _ _) hm8')⟩ ?_
  refine vite_inv
    (vite_inv
      ⟨le_min (by linarith) hm0,
       le_min (min_le_right _ _) (le_trans (min_le_right _ _) hm8')⟩
      ⟨hs0, hs1⟩) ?_
  exact vite_inv
    ⟨le_max_of_le_right (by linarith),
     max_le (le_min (by linarith) (by linarith))
       (le_min (by linarith) (by linarith))⟩
    ⟨hs0, hs1⟩

/-- ai_decision_fuzzy preserves the speed invariant for well-tuned
vehicles. -/
theorem ai_decision_fuzzy_inv (v : Vehicle) (traffic : List TrafficCar)
    (powerups : List PowerUp) (opponent : Option Vehicle) (ghost_mode : Bool)
    (hv : SpeedInv v) (ht : WellTuned v) :
    SpeedInv (ai_decision_fuzzy v traffic powerups opponent ghost_mode) := by
  obtain ⟨hs0, hs1⟩ := hv
  obtain ⟨ha, hb, hm2, hm8⟩ := ht
  have hm0 : (0 : ℚ) ≤ v.max_speed := by linarith
  cases opponent with
  | none =>
    unfold ai_decision_fuzzy
    dsimp only [fuzzy_lane_change_steer, fuzzy_powerup_steer]
    exact vite_inv ⟨hs0, hs1⟩
      (vite_inv (emergency_tiered_override_inv _ _ hs0 hb hm0)
        (enforce_speed_limit_inv _
          (vite_speed_nonneg ((fuzzy_speed_exec_normal_nonneg _ _ _ hs0 ha hm0).1)
            hs0)
          (vite_max_nonneg hm0 hm0)))
  | some opp =>
    unfold ai_decision_fuzzy
    dsimp only [fuzzy_lane_change_steer, fuzzy_powerup_steer]
    exact vite_inv ⟨hs0, hs1⟩
      (vite_inv (emergency_tiered_override_inv _ _ hs0 hb hm0)
        (enforce_speed_limit_inv _
          (vite_speed_nonneg
            (vite_speed_nonneg
              (vite_speed_nonneg
                (vite_speed_nonneg (le_min (by linarith) hm0)
                  (le_max_of_le_right (by linarith)))
                (vite_speed_nonneg
                  (vite_speed_nonneg (le_min (by linarith) hm0)
                    (vite_speed_nonneg (le_min (by linarith) hm0)
                      (vite_speed_nonneg (le_max_of_le_right (by linarith))
                        (vite_speed_nonneg (le_max_of_le_right (by linarith))
                          (vite_speed_nonneg (le_min (by linarith) hm0) hs0)))))
                  ((fuzzy_speed_exec_normal_nonneg _ _ _ hs0 ha hm0).1)))
              ((fuzzy_speed_exec_normal_nonneg _ _ _ hs0 ha hm0).1))
            hs0)
          (vite_max_nonneg
            (vite_max_nonneg
              (vite_max_nonneg
                (vite_max_nonneg hm0 hm0)
                (vite_max_nonneg
                  (vite_max_nonneg hm0
                    (vite_max_nonneg hm0
                      (vite_max_nonneg hm0
                        (vite_max_nonneg hm0 (vite_max_nonneg hm0 hm0)))))
                  hm0))
              hm0)
            hm0)))

/-- ai_decision_astar preserves the speed invariant for well-tuned
vehicles against opponents with nonnegative speed. -/
theorem ai_decision_astar_inv (hfun : ℕ → ℚ → ℕ → ℚ → ℚ) (v : Vehicle)
    (traffic : List TrafficCar) (powerups : List PowerUp)
    (opponent : Option Vehicle) (ghost_mode : Bool)
    (hv : SpeedInv v) (ht : WellTuned v) (ho : OppSpeedOK opponent) :
    SpeedInv (ai_decision_astar hfun v traffic powerups opponent ghost_mode) := by
  obtain ⟨hs0, hs1⟩ := hv
  obtain ⟨ha, hb, hm2, hm8⟩ := ht
  have hs1a : v.speed ≤ v.max_speed := le_trans hs1 (min_le_left _ _)
  have hs1b : v.speed ≤ 8 := le_trans hs1 (min_le_right _ _)
  have hm8' : v.max_speed ≤ 8 := hm8
  have hm0 : (0 : ℚ) ≤ v.max_speed := by linarith
  cases opponent with
  | none =>
    unfold ai_decision_astar
    dsimp only [astar_steer, Option.getD]
    refine vite_inv ⟨hs0, hs1⟩
      (vite_inv (emergency_tiered_override_inv _ _ hs0 hb hm0) ?_)
    split
    · refine vite_inv (enforce_speed_limit_inv _ ?_ hm0)
        (enforce_speed_limit_inv _ hs0 hm0)
      exact rite_nonneg
        (rite_nonneg (le_max_of_le_right (by linarith))
          (rite_nonneg (le_max_of_le_right (by linarith))
            (rite_nonneg (le_max_of_le_right (by linarith))
              (rite_nonneg (le_max_of_le_right (by linarith))
                (le_max_of_le_right (by linarith))))))
        (le_min (by linarith) hm0)
    all_goals exact enforce_speed_limit_inv _ hs0 hm0
  | some opp =>
    have ho' : 0 ≤ opp.speed := ho
    unfold ai_decision_astar
    dsimp only [astar_steer]
    refine vite_inv ⟨hs0, hs1⟩
      (vite_inv (emergency_tiered_override_inv _ _ hs0 hb hm0) ?_)
    split
    · refine vite_inv (ogetD_inv ?_ (enforce_speed_limit_inv _ ?_ hm0))
        (enforce_speed_limit_inv _ hs0 hm0)
      · refine oite_inv ?_ onone_inv
        exact oite_inv
          (osome_inv
            ⟨le_max_of_le_right (le_min (by linarith) (by linarith)),
             max_le (le_min (by linarith) (by linarith))
               (le_min (le_trans (min_le_right _ _) (by linarith))
                 (le_trans (min_le_right _ _) (by linarith)))⟩)
          (oite_inv
            (oite_inv
              (osome_inv
                ⟨le_max_of_le_right (le_min (by linarith) (by linarith)),
                 max_le (le_min (by linarith) (by linarith))
                   (le_min (le_trans (min_le_right _ _) (by linarith))
                     (le_trans (min_le_right _ _) (by linarith)))⟩)
              (osome_inv
                ⟨le_min (by linarith) (le_min (by linarith) (by linarith)),
                 le_min
                   (le_trans (min_le_right _ _)
                     (le_trans (min_le_right _ _) (by linarith)))
                   (le_trans (min_le_right _ _)
                     (le_trans (min_le_right _ _) (by linarith)))⟩))
            (oite_inv
              (oite_inv
                (osome_inv
                  ⟨le_max_of_le_right (le_min (by linarith) (by linarith)),
                   max_le (le_min (by linarith) (by linarith))
                     (le_min (le_trans (min_le_right _ _) (by linarith))
                       (le_trans (min_le_right _ _) (by linarith)))⟩)
                (osome_inv
                  ⟨le_min (by linarith) (le_min (by linarith) (by linarith)),
                   le_min
                     (le_trans (min_le_right _ _)
                       (le_trans (min_le_right _ _) (by linarith)))
                     (le_trans (min_le_right _ _)
                       (le_trans (min_le_right _ _) (by linarith)))⟩))
              (oite_inv
                (osome_inv
                  ⟨le_max_of_le_right (by norm_num),
                   max_le (le_min (by linarith) (by linarith))
                     (le_min (by linarith) (by norm_num [ABSOLUTE_MAX_SPEED]))⟩)
                onone_inv)))
      · exact rite_nonneg
          (rite_nonneg (le_max_of_le_right (by linarith))
            (rite_nonneg (le_max_of_le_right (by linarith))
              (rite_nonneg (le_max_of_le_right (by linarith))
                (rite_nonneg (le_max_of_le_right (by linarith))
                  (le_max_of_le_right (by linarith))))))
          (le_min (by linarith) hm0)
    all_goals exact enforce_speed_limit_inv _ hs0 hm0

set_option maxHeartbeats 400000

/-- For every some-result of ai_decision_minimax (the exception path is
none), the speed invariant holds for well-tuned vehicles. -/
theorem ai_decision_minimax_inv (timeUp : ℕ → Bool) (v : Vehicle)
    (traffic : List TrafficCar) (powerups : List PowerUp)
    (opponent : Option Vehicle) (ghost_mode : Bool)
    (hv : SpeedInv v) (ht : WellTuned v) (ho : OppSpeedOK opponent) :
    ∀ w, ai_decision_minimax timeUp v traffic powerups opponent ghost_mode =
      some w → SpeedInv w := by
  obtain ⟨hs0, hs1⟩ := hv
  obtain ⟨ha, hb, hm2, hm8⟩ := ht
  have hs1a : v.speed ≤ v.max_speed := le_trans hs1 (min_le_left _ _)
  have hs1b : v.speed ≤ 8 := le_trans hs1 (min_le_right _ _)
  have hm8' : v.max_speed ≤ 8 := hm8
  have hm0 : (0 : ℚ) ≤ v.max_speed := by linarith
  have hS0 : 0 ≤ (if (predictive_safety_check v traffic).recommended_action.urgency
        = "high" then max (v.speed - v.brake_rate * 0.8) (v.max_speed * 0.50)
      else v.speed) :=
    rite_nonneg (le_max_of_le_right (by linarith)) hs0
  cases opponent with
  | none =>
    unfold ai_decision_minimax
    dsimp only [minimax_steer]
    exact oite_inv (osome_inv ⟨hs0, hs1⟩)
      (oite_inv
        (osome_inv
          (enforce_speed_limit_inv _ (le_max_of_le_right (by linarith)) hm0))
        onone_inv)
  | some opp =>
    unfold ai_decision_minimax
    dsimp only [minimax_steer]
    refine oite_inv (osome_inv ⟨hs0, hs1⟩) ?_
    refine oite_inv
      (osome_inv
        (enforce_speed_limit_inv _ (le_max_of_le_right (by linarith)) hm0)) ?_
    refine osome_inv (enforce_speed_limit_inv _ ?_ ?_)
    · refine vite_speed_nonneg ?_ hS0
      refine vite_speed_nonneg ?_ ?_
      · refine vite_speed_nonneg ?_ ?_
        · exact vite_speed_nonneg (le_min (by linarith [hS0]) hm0)
            (le_max_of_le_right (by linarith))
        · refine vite_speed_nonneg ?_ ?_
          · exact vite_speed_nonneg (le_min (by linarith [hS0]) hm0)
              (vite_speed_nonneg (le_min (by linarith [hS0]) hm0)
                (vite_speed_nonneg (le_max_of_le_right (by linarith)) hS0))
          · exact minimax_speed_exec_speed_nonneg _ _ hS0 ha hm0
      · exact minimax_speed_exec_speed_nonneg _ _ hS0 ha hm0
    · refine vite_max_nonneg ?_ hm0
      refine vite_max_nonneg ?_ hm0
      refine vite_max_nonneg ?_ ?_
      · exact vite_max_nonneg hm0 hm0
      · refine vite_max_nonneg ?_ hm0
        exact vite_max_nonneg hm0
          (vite_max_nonneg hm0 (vite_max_nonneg hm0 hm0))

/-- The arbiter preserves the speed invariant on every some-result, for
well-tuned vehicles against opponents with nonnegative speed. -/
theorem priority_decision_hierarchy_inv (timeUp : ℕ → Bool)
    (hfun : ℕ → ℚ → ℕ → ℚ → ℚ) (v : Vehicle) (traffic : List TrafficCar)
    (powerups : List PowerUp) (opponent : Option Vehicle) (ghost_mode : Bool)
    (hv : SpeedInv v) (ht : WellTuned v) (ho : OppSpeedOK opponent) :
    ∀ w, priority_decision_hierarchy timeUp hfun v traffic powerups opponent
      ghost_mode = some w → SpeedInv w := by
  obtain ⟨hs0, hs1⟩ := hv
  obtain ⟨ha, hb, hm2, hm8⟩ := ht
  have hm0 : (0 : ℚ) ≤ v.max_speed := by linarith
  intro w hw
  unfold priority_decision_hierarchy at hw
  dsimp only at hw
  by_cases hcr : v.crashed = true
  · rw [if_pos hcr] at hw
    exact osome_inv ⟨hs0, hs1⟩ w hw
  · rw [if_neg hcr] at hw
    by_cases hcrit : (predictive_safety_check v traffic).recommended_action.urgency
        = "critical"
    · rw [if_pos hcrit] at hw
      exact osome_inv (execute_safety_override_inv _ _ hs0 hb hm0) w hw
    · rw [if_neg hcrit] at hw
      by_cases hbias :
          (predictive_safety_check v traffic).recommended_action.urgency ≠ "high" ∧
          (predictive_safety_check v traffic).recommended_action.urgency ≠ "critical"
      · rw [if_pos hbias] at hw
        refine omap_inv ?_ (fun u hu => ?_) w hw
        · exact oite_inv
            (osome_inv (execute_safety_influenced_decision_inv _ _ hs0 hb hm0))
            (oite_inv
              (osome_inv (ai_decision_fuzzy_inv _ _ _ _ _ ⟨hs0, hs1⟩
                ⟨ha, hb, hm2, hm8⟩))
              (oite_inv
                (ai_decision_minimax_inv _ _ _ _ _ _ ⟨hs0, hs1⟩
                  ⟨ha, hb, hm2, hm8⟩ ho)
                (osome_inv (ai_decision_astar_inv _ _ _ _ _ _ ⟨hs0, hs1⟩
                  ⟨ha, hb, hm2, hm8⟩ ho))))
        · rw [if_neg (fun hc => hcrit hc.1)]
          exact hu
      · rw [if_neg hbias] at hw
        refine omap_inv ?_ (fun u hu => ?_) w hw
        · exact oite_inv
            (osome_inv (execute_safety_influenced_decision_inv _ _ hs0 hb hm0))
            (oite_inv
              (osome_inv (ai_decision_fuzzy_inv _ _ _ _ _ ⟨hs0, hs1⟩
                ⟨ha, hb, hm2, hm8⟩))
              (oite_inv
                (ai_decision_minimax_inv _ _ _ _ _ _ ⟨hs0, hs1⟩
                  ⟨ha, hb, hm2, hm8⟩ ho)
                (osome_inv (ai_decision_astar_inv _ _ _ _ _ _ ⟨hs0, hs1⟩
                  ⟨ha, hb, hm2, hm8⟩ ho))))
        · rw [if_neg (fun hc => hcrit hc.1)]
          exact hu

/-- C2 counterexample: c2_vehicle (speed 8, max_speed 12) satisfies the
claimed precondition 0 ≤ speed ≤ min(max_speed, ABSOLUTE_MAX_SPEED), yet
one call of ai_decision_csp on an empty road raises its speed to 8.2,
above ABSOLUTE_MAX_SPEED = 8, because the CSP branch writes the new speed
as min(speed + 0.2, max_speed) without calling enforce_speed_limit. -/
theorem C2_counterexample :
    SpeedInv c2_vehicle ∧
    (ai_decision_csp c2_vehicle [] [] none false).speed = 41 / 5 ∧
    ¬ SpeedInv (ai_decision_csp c2_vehicle [] [] none false) :=
  ⟨⟨by decide, by decide⟩, by decide, fun h => absurd h.2 (by decide)⟩

/-- C2 (amended): for a well-tuned vehicle (nonnegative acceleration and
brake rates, 2 ≤ max_speed ≤ ABSOLUTE_MAX_SPEED) and an opponent with
nonnegative speed, every decision entry point preserves
0 ≤ speed ≤ min(max_speed, ABSOLUTE_MAX_SPEED): ai_decision_csp,
ai_decision_fuzzy and ai_decision_astar always, and ai_decision_minimax
and priority_decision_hierarchy on every returned (some) vehicle. -/
theorem C2_speed_invariant_amended (timeUp : ℕ → Bool)
    (hfun : ℕ → ℚ → ℕ → ℚ → ℚ) (v : Vehicle) (traffic : List TrafficCar)
    (powerups : List PowerUp) (opponent : Option Vehicle) (ghost_mode : Bool)
    (hv : SpeedInv v) (ht : WellTuned v) (ho : OppSpeedOK opponent) :
    SpeedInv (ai_decision_csp v traffic powerups opponent ghost_mode) ∧
    SpeedInv (ai_decision_fuzzy v traffic powerups opponent ghost_mode) ∧
    SpeedInv (ai_decision_astar hfun v traffic powerups opponent ghost_mode) ∧
    (∀ w, ai_decision_minimax timeUp v traffic powerups opponent ghost_mode =
      some w → SpeedInv w) ∧
    (∀ w, priority_decision_hierarchy timeUp hfun v traffic powerups opponent
      ghost_mode = some w → SpeedInv w) :=
  ⟨ai_decision_csp_inv v traffic powerups opponent ghost_mode hv ht,
   ai_decision_fuzzy_inv v traffic powerups opponent ghost_mode hv ht,
   ai_decision_astar_inv hfun v traffic powerups opponent ghost_mode hv ht ho,
   ai_decision_minimax_inv timeUp v traffic powerups opponent ghost_mode hv ht ho,
   priority_decision_hierarchy_inv timeUp hfun v traffic powerups opponent
     ghost_mode hv ht ho⟩

/-- Witness for C2 (amended): the hypotheses hold at c6_vehicle on an
empty road, and the theorem then yields the invariant for the CSP entry
point at that input. -/
theorem C2_speed_invariant_amended_witness :
    SpeedInv c6_vehicle ∧ WellTuned c6_vehicle ∧
    SpeedInv (ai_decision_csp c6_vehicle [] [] none false) :=
  ⟨⟨by decide, by decide⟩, ⟨by decide, by decide, by decide, by decide⟩,
   (C2_speed_invariant_amended (fun _ => false) (fun _ _ _ _ => 0) c6_vehicle
     [] [] none false ⟨by decide, by decide⟩
     ⟨by decide, by decide, by decide, by decide⟩ trivial).1⟩

/-! ## C8: clear-road end-to-end scenario -/

/-- Tick 0 of the clear-road run follows the closed form. -/
theorem c8_tick_0 :
    decision_tick (clear_road_state 0) = some (clear_road_state 1) := by
  decide!

/-- Tick 1 of the clear-road run follows the closed form. -/
theorem c8_tick_1 :
    decision_tick (clear_road_state 1) = some (clear_road_state 2) := by
  decide!

/-- Tick 2 of the clear-road run follows the closed form. -/
theorem c8_tick_2 :
    decision_tick (clear_road_state 2) = some (clear_road_state 3) := by
  decide!

/-- Tick 3 of the clear-road run follows the closed form. -/
theorem c8_tick_3 :
    decision_tick (clear_road_state 3) = some (clear_road_state 4) := by
  decide!

/-- Tick 4 of the clear-road run follows the closed form. -/
theorem c8_tick_4 :
    decision_tick (clear_road_state 4) = some (clear_road_state 5) := by
  decide!

/-- Tick 5 of the clear-road run follows the closed form. -/
theorem c8_tick_5 :
    decision_tick (clear_road_state 5) = some (clear_road_state 6) := by
  decide!

/-- Tick 6 of the clear-road run follows the closed form. -/
theorem c8_tick_6 :
    decision_tick (clear_road_state 6) = some (clear_road_state 7) := by
  decide!

/-- Tick 7 of the clear-road run follows the closed form. -/
theorem c8_tick_7 :
    decision_tick (clear_road_state 7) = some (clear_road_state 8) := by
  decide!

/-- Tick 8 of the clear-road run follows the closed form. -/
theorem c8_tick_8 :
    decision_tick (clear_road_state 8) = some (clear_road_state 9) := by
  decide!

/-- Tick 9 of the clear-road run follows the closed form. -/
theorem c8_tick_9 :
    decision_tick (clear_road_state 9) = some (clear_road_state 10) := by
  decide!

/-- Tick 10 of the clear-road run follows the closed form. -/
theorem c8_tick_10 :
    decision_tick (clear_road_state 10) = some (clear_road_state 11) := by
  decide!

/-- Tick 11 of the clear-road run follows the closed form. -/
theorem c8_tick_11 :
    decision_tick (clear_road_state 11) = some (clear_road_state 12) := by
  decide!

/-- Tick 12 of the clear-road run follows the closed form. -/
theorem c8_tick_12 :
    decision_tick (clear_road_state 12) = some (clear_road_state 13) := by
  decide!

/-- Tick 13 of the clear-road run follows the closed form. -/
theorem c8_tick_13 :
    decision_tick (clear_road_state 13) = some (clear_road_state 14) := by
  decide!

/-- Tick 14 of the clear-road run follows the closed form. -/
theorem c8_tick_14 :
    decision_tick (clear_road_state 14) = some (clear_road_state 15) := by
  decide!

/-- Tick 15 of the clear-road run follows the closed form. -/
theorem c8_tick_15 :
    decision_tick (clear_road_state 15) = some (clear_road_state 16) := by
  decide!

/-- Tick 16 of the clear-road run follows the closed form. -/
theorem c8_tick_16 :
    decision_tick (clear_road_state 16) = some (clear_road_state 17) := by
  decide!

/-- Tick 17 of the clear-road run follows the closed form. -/
theorem c8_tick_17 :
    decision_tick (clear_road_state 17) = some (clear_road_state 18) := by
  decide!

/-- Tick 18 of the clear-road run follows the closed form. -/
theorem c8_tick_18 :
    decision_tick (clear_road_state 18) = some (clear_road_state 19) := by
  decide!

/-- Tick 19 of the clear-road run follows the closed form. -/
theorem c8_tick_19 :
    decision_tick (clear_road_state 19) = some (clear_road_state 20) := by
  decide!

/-- Tick 20 of the clear-road run follows the closed form. -/
theorem c8_tick_20 :
    decision_tick (clear_road_state 20) = some (clear_road_state 21) := by
  decide!

/-- Tick 21 of the clear-road run follows the closed form. -/
theorem c8_tick_21 :
    decision_tick (clear_road_state 21) = some (clear_road_state 22) := by
  decide!

/-- Tick 22 of the clear-road run follows the closed form. -/
theorem c8_tick_22 :
    decision_tick (clear_road_state 22) = some (clear_road_state 23) := by
  decide!

/-- Tick 23 of the clear-road run follows the closed form. -/
theorem c8_tick_23 :
    decision_tick (clear_road_state 23) = some (clear_road_state 24) := by
  decide!

/-- Tick 24 of the clear-road run follows the closed form. -/
theorem c8_tick_24 :
    decision_tick (clear_road_state 24) = some (clear_road_state 25) := by
  decide!

/-- Tick 25 of the clear-road run follows the closed form. -/
theorem c8_tick_25 :
    decision_tick (clear_road_state 25) = some (clear_road_state 26) := by
  decide!

/-- Tick 26 of the clear-road run follows the closed form. -/
theorem c8_tick_26 :
    decision_tick (clear_road_state 26) = some (clear_road_state 27) := by
  decide!

/-- Tick 27 of the clear-road run follows the closed form. -/
theorem c8_tick_27 :
    decision_tick (clear_road_state 27) = some (clear_road_state 28) := by
  decide!

/-- Tick 28 of the clear-road run follows the closed form. -/
theorem c8_tick_28 :
    decision_tick (clear_road_state 28) = some (clear_road_state 29) := by
  decide!

/-- Tick 29 of the clear-road run follows the closed form. -/
theorem c8_tick_29 :
    decision_tick (clear_road_state 29) = some (clear_road_state 30) := by
  decide!

/-- Tick 30 of the clear-road run follows the closed form. -/
theorem c8_tick_30 :
    decision_tick (clear_road_state 30) = some (clear_road_state 31) := by
  decide!

/-- Tick 31 of the clear-road run follows the closed form. -/
theorem c8_tick_31 :
    decision_tick (clear_road_state 31) = some (clear_road_state 32) := by
  decide!

/-- Tick 32 of the clear-road run follows the closed form. -/
theorem c8_tick_32 :
    decision_tick (clear_road_state 32) = some (clear_road_state 33) := by
  decide!

/-- Tick 33 of the clear-road run follows the closed form. -/
theorem c8_tick_33 :
    decision_tick (clear_road_state 33) = some (clear_road_state 34) := by
  decide!

/-- The steady state is a fixpoint of the decision tick. -/
theorem c8_tick_steady :
    decision_tick clear_road_steady = some clear_road_steady := by
  decide!

/-- From tick 34 on, the closed form sits at the steady state. -/
theorem c8_steady_form (k : ℕ) (hk : 34 ≤ k) :
    clear_road_state k = clear_road_steady := by
  have hkq : (34 : ℚ) ≤ (k : ℚ) := by exact_mod_cast hk
  have h8 : min (6 * (k : ℚ) / 25) 8 = 8 := min_eq_right (by linarith)
  unfold clear_road_state clear_road_steady
  rw [h8]

/-- Every tick of the first 60 follows the closed form. -/
theorem c8_tick (k : ℕ) (hk : k ≤ 59) :
    decision_tick (clear_road_state k) = some (clear_road_state (k + 1)) := by
  by_cases h33 : k ≤ 33
  · interval_cases k
    · exact c8_tick_0
    · exact c8_tick_1
    · exact c8_tick_2
    · exact c8_tick_3
    · exact c8_tick_4
    · exact c8_tick_5
    · exact c8_tick_6
    · exact c8_tick_7
    · exact c8_tick_8
    · exact c8_tick_9
    · exact c8_tick_10
    · exact c8_tick_11
    · exact c8_tick_12
    · exact c8_tick_13
    · exact c8_tick_14
    · exact c8_tick_15
    · exact c8_tick_16
    · exact c8_tick_17
    · exact c8_tick_18
    · exact c8_tick_19
    · exact c8_tick_20
    · exact c8_tick_21
    · exact c8_tick_22
    · exact c8_tick_23
    · exact c8_tick_24
    · exact c8_tick_25
    · exact c8_tick_26
    · exact c8_tick_27
    · exact c8_tick_28
    · exact c8_tick_29
    · exact c8_tick_30
    · exact c8_tick_31
    · exact c8_tick_32
    · exact c8_tick_33
  · rw [c8_steady_form k (by omega), c8_steady_form (k + 1) (by omega)]
    exact c8_tick_steady

/-- The iterated trace matches the closed form on the first 60 ticks. -/
theorem c8_trace (k : ℕ) (hk : k ≤ 60) :
    clear_road_trace (clear_road_state 0) k = clear_road_state k := by
  induction k with
  | zero => rfl
  | succ n ih =>
    show (decision_tick (clear_road_trace (clear_road_state 0) n)).getD
      (clear_road_trace (clear_road_state 0) n) = clear_road_state (n + 1)
    rw [ih (by omega), c8_tick n (by omega)]
    rfl

/-- C8 counterexample: a vehicle meeting the scenario's stated premises
(speed 0, max_speed 8, empty road) but starting off-center at x = 420
sits in lane 1 before the first tick and in lane 0 after it — the
pipeline's A* branch steers toward the clearest lane's center, so the
lane does change. -/
theorem C8_counterexample :
    c8_cex_vehicle.speed = 0 ∧ c8_cex_vehicle.max_speed = 8 ∧
    get_lane_from_x c8_cex_vehicle.x = 1 ∧
    (decision_tick c8_cex_vehicle).isSome = true ∧
    get_lane_from_x ((decision_tick c8_cex_vehicle).getD c8_cex_vehicle).x = 0 :=
  ⟨rfl, rfl, by decide, by decide!, by decide!⟩

/-- C8 (amended): starting lane-centered at the lane-0 center with speed
0 and max_speed 8 on an empty road, the 60-tick pipeline trace follows
the closed form clear_road_state: speed is monotonically non-decreasing,
equals max_speed 8 from tick 34 on, and the lane never changes. -/
theorem C8_clear_road_amended :
    (clear_road_state 0).speed = 0 ∧ (clear_road_state 0).max_speed = 8 ∧
    get_lane_from_x (clear_road_state 0).x = 0 ∧
    (∀ k, k ≤ 60 → clear_road_trace (clear_road_state 0) k = clear_road_state k) ∧
    (∀ j k, j ≤ k → k ≤ 60 →
      (clear_road_trace (clear_road_state 0) j).speed ≤
        (clear_road_trace (clear_road_state 0) k).speed) ∧
    (∀ k, 34 ≤ k → k ≤ 60 →
      (clear_road_trace (clear_road_state 0) k).speed = 8) ∧
    (∀ k, k ≤ 60 →
      get_lane_from_x (clear_road_trace (clear_road_state 0) k).x = 0) := by
  refine ⟨by decide, rfl, by decide, c8_trace, ?_, ?_, ?_⟩
  · intro j k hjk hk
    rw [c8_trace j (le_trans hjk hk), c8_trace k hk]
    have hq : (j : ℚ) ≤ (k : ℚ) := by exact_mod_cast hjk
    exact min_le_min (by linarith) le_rfl
  · intro k h34 h60
    rw [c8_trace k h60, c8_steady_form k h34]
    rfl
  · intro k hk
    rw [c8_trace k hk]
    show get_lane_from_x 333 = 0
    decide

/-- Witness for C8 (amended): at the concrete ticks 20 and 60 the trace
matches the closed form, the speed is 8 at tick 60 and at least the tick
20 speed, and the lane is still 0. -/
theorem C8_clear_road_amended_witness :
    clear_road_trace (clear_road_state 0) 60 = clear_road_state 60 ∧
    (clear_road_trace (clear_road_state 0) 20).speed ≤
      (clear_road_trace (clear_road_state 0) 60).speed ∧
    (clear_road_trace (clear_road_state 0) 60).speed = 8 ∧
    get_lane_from_x (clear_road_trace (clear_road_state 0) 60).x = 0 :=
  ⟨C8_clear_road_amended.2.2.2.1 60 (by decide),
   C8_clear_road_amended.2.2.2.2.1 20 60 (by decide) (by decide),
   C8_clear_road_amended.2.2.2.2.2.1 60 (by decide) (by decide),
   C8_clear_road_amended.2.2.2.2.2.2 60 (by decide)⟩

end PoliceThief
